import Mathlib

/-! libadvaita: `AdwSettings` and the responses of `AdwMessageDialog`.

A shallow embedding of `src/adw-settings.c`.  The object is a record, every
function of the C file is a function on that record, and the property
notifications a function emits (`g_object_notify_by_pspec`) are returned next
to the new record, in emission order.

What the C file calls but does not define (the settings backends, the process
environment, the desktop's theme-name sources) is gathered in `Env` and passed
explicitly.
-/

namespace Adw

/-! ## Data model -/

/-- The enumeration `AdwSystemColorScheme` of `adw-settings-private.h`. -/
inductive AdwSystemColorScheme where
  | ADW_SYSTEM_COLOR_SCHEME_DEFAULT
  | ADW_SYSTEM_COLOR_SCHEME_PREFER_DARK
  | ADW_SYSTEM_COLOR_SCHEME_PREFER_LIGHT
  deriving DecidableEq

open AdwSystemColorScheme

/-- The property identifiers of `adw-settings.c` (the anonymous `enum` without
`PROP_0` and `LAST_PROP`); a value stands for one `notify::` emission. -/
inductive PropId where
  | PROP_SYSTEM_SUPPORTS_COLOR_SCHEMES
  | PROP_COLOR_SCHEME
  | PROP_HIGH_CONTRAST
  | PROP_YARU_ACCENT
  deriving DecidableEq

open PropId

/-- What `register_impl` reads from a backend object: the results of
`adw_settings_impl_get_has_color_scheme`, `adw_settings_impl_get_color_scheme`,
`adw_settings_impl_get_has_high_contrast` and
`adw_settings_impl_get_high_contrast`. -/
structure AdwSettingsImpl where
  has_color_scheme : Bool
  color_scheme : AdwSystemColorScheme
  has_high_contrast : Bool
  high_contrast : Bool
  deriving DecidableEq

/-- The instance structure `struct _AdwSettings`; a `NULL` pointer is `none`. -/
structure AdwSettings where
  platform_impl : Option AdwSettingsImpl
  gsettings_impl : Option AdwSettingsImpl
  legacy_impl : Option AdwSettingsImpl
  color_scheme : AdwSystemColorScheme
  high_contrast : Bool
  system_supports_color_schemes : Bool
  yaru_accent : Option String
  override : Bool
  system_supports_color_schemes_override : Bool
  color_scheme_override : AdwSystemColorScheme
  high_contrast_override : Bool
  deriving DecidableEq

/-- Everything `adw-settings.c` obtains from outside itself.

* `ADW_DEBUG_HIGH_CONTRAST`, `ADW_DEBUG_COLOR_SCHEME`: the results of `g_getenv`.
* `adw_settings_impl_*_new enable_color_scheme enable_high_contrast`: the
  backend constructors, seen through what the new object reports.
* `portal_enabled`: `adw_settings_impl_portal_enabled (self->platform_impl)`.
* `portal_read_gtk_theme`: the string read by
  `adw_settings_impl_portal_read_setting (..., "gtk-theme", "s", &variant)`,
  `none` when the call returns `FALSE`.
* `gdk_display_gtk_theme_name`: `none` when `gdk_display_get_default ()` is
  `NULL`, `some none` when `gdk_display_get_setting` returns `FALSE`, else the
  value of `gtk-theme-name`.
* `gsettings_interface_gtk_theme`: `none` when
  `adw_settings_impl_gsettings_get_interface_settings` is `NULL`, else the
  `gtk-theme` string of those settings. -/
structure Env where
  ADW_DEBUG_HIGH_CONTRAST : Option String
  ADW_DEBUG_COLOR_SCHEME : Option String
  adw_settings_impl_portal_new : Bool → Bool → AdwSettingsImpl
  adw_settings_impl_gsettings_new : Bool → Bool → AdwSettingsImpl
  adw_settings_impl_legacy_new : Bool → Bool → AdwSettingsImpl
  portal_enabled : Bool
  portal_read_gtk_theme : Option String
  gdk_display_gtk_theme_name : Option (Option String)
  gsettings_interface_gtk_theme : Option String

/-! ## GLib string helpers used by the file -/

/-- GLib `g_strcmp0`: a `NULL`-safe `strcmp`; `NULL` sorts before every string.  Only
whether the result is `0` is used. -/
def g_strcmp0 (str1 str2 : Option String) : Int :=
  match str1, str2 with
  | none, none => 0
  | none, some _ => -1
  | some _, none => 1
  | some a, some b => if a = b then 0 else if a < b then -1 else 1

/-- GLib `g_str_equal` on two non-`NULL` strings. -/
def g_str_equal (v1 v2 : String) : Bool :=
  decide (v1 = v2)

/-- GLib `g_str_has_prefix (str, prefix)`. -/
def g_str_has_prefix (str pre : String) : Bool :=
  pre.data.isPrefixOf str.data

/-- The character `str[i]` of a C string: past the last character stands the
terminating NUL. -/
def c_char_at (str : String) (i : Nat) : Char :=
  str.data.getD i (Char.ofNat 0)

/-- The fields of a non-empty string cut at every occurrence of the delimiter
character: the loop of `g_strsplit` followed by its final "rest of the string"
token. -/
def g_strsplit_fields (delimiter : Char) : List Char → List (List Char)
  | [] => [[]]
  | c :: cs =>
    if c = delimiter then [] :: g_strsplit_fields delimiter cs
    else
      match g_strsplit_fields delimiter cs with
      | [] => [[c]]
      | f :: fs => (c :: f) :: fs

/-- GLib `g_strsplit (string, delimiter, -1)` for a one-character delimiter (the only
call passes `"-"`): no limit on the number of tokens, empty tokens are kept, and
the empty string gives the empty vector. -/
def g_strsplit (string : String) (delimiter : Char) : List String :=
  if string.data = [] then []
  else (g_strsplit_fields delimiter string.data).map String.mk

/-! ## `adw-settings.c` -/

/-- The instance right after allocation: GObject zero-fills the structure and
`adw_settings_init` is empty. -/
def adw_settings_init : AdwSettings :=
  { platform_impl := none
    gsettings_impl := none
    legacy_impl := none
    color_scheme := ADW_SYSTEM_COLOR_SCHEME_DEFAULT
    high_contrast := false
    system_supports_color_schemes := false
    yaru_accent := none
    override := false
    system_supports_color_schemes_override := false
    color_scheme_override := ADW_SYSTEM_COLOR_SCHEME_DEFAULT
    high_contrast_override := false }

/-- The function `set_color_scheme`: the backend callback for `color-scheme-changed`. -/
def set_color_scheme (self : AdwSettings) (color_scheme : AdwSystemColorScheme) :
    AdwSettings × List PropId :=
  if color_scheme = self.color_scheme then (self, [])
  else
    let self := { self with color_scheme := color_scheme }
    if !self.override then (self, [PROP_COLOR_SCHEME]) else (self, [])

/-- The function `set_high_contrast`: the backend callback for `high-contrast-changed`. -/
def set_high_contrast (self : AdwSettings) (high_contrast : Bool) :
    AdwSettings × List PropId :=
  if high_contrast = self.high_contrast then (self, [])
  else
    let self := { self with high_contrast := high_contrast }
    if !self.override then (self, [PROP_HIGH_CONTRAST]) else (self, [])

/-- The function `init_debug`: the two out-parameters are returned after the object. -/
def init_debug (env : Env) (self : AdwSettings)
    (found_color_scheme found_high_contrast : Bool) : AdwSettings × Bool × Bool :=
  let (self, found_high_contrast) :=
    match env.ADW_DEBUG_HIGH_CONTRAST with
    | none => (self, found_high_contrast)
    | some v =>
      if v.data = [] then (self, found_high_contrast)
      else if g_strcmp0 (some v) (some "1") = 0 then
        ({ self with high_contrast := true }, true)
      else if g_strcmp0 (some v) (some "0") = 0 then
        ({ self with high_contrast := false }, true)
      else (self, found_high_contrast)
  match env.ADW_DEBUG_COLOR_SCHEME with
  | none => (self, found_color_scheme, found_high_contrast)
  | some v =>
    if g_strcmp0 (some v) (some "default") = 0 then
      ({ self with color_scheme := ADW_SYSTEM_COLOR_SCHEME_DEFAULT }, true, found_high_contrast)
    else if g_strcmp0 (some v) (some "prefer-dark") = 0 then
      ({ self with color_scheme := ADW_SYSTEM_COLOR_SCHEME_PREFER_DARK }, true,
        found_high_contrast)
    else if g_strcmp0 (some v) (some "prefer-light") = 0 then
      ({ self with color_scheme := ADW_SYSTEM_COLOR_SCHEME_PREFER_LIGHT }, true,
        found_high_contrast)
    else (self, found_color_scheme, found_high_contrast)

/-- The function `register_impl`: the two out-parameters are returned after the object, the
emitted notifications last. -/
def register_impl (self : AdwSettings) (impl : AdwSettingsImpl)
    (found_color_scheme found_high_contrast : Bool) :
    AdwSettings × Bool × Bool × List PropId :=
  let (self, found_color_scheme, n1) :=
    if impl.has_color_scheme then
      let r := set_color_scheme self impl.color_scheme
      (r.1, true, r.2)
    else (self, found_color_scheme, [])
  let (self, found_high_contrast, n2) :=
    if impl.has_high_contrast then
      let r := set_high_contrast self impl.high_contrast
      (r.1, true, r.2)
    else (self, found_high_contrast, [])
  (self, found_color_scheme, found_high_contrast, n1 ++ n2)

/-- The function `update_yaru_accent_from_theme`; `g_steal_pointer` empties the
field before anything else is looked at. -/
def update_yaru_accent_from_theme (self : AdwSettings) (theme_name : String) :
    AdwSettings × List PropId :=
  let old_accent := self.yaru_accent
  let self := { self with yaru_accent := none }
  if self.override then (self, [])
  else
    let self :=
      if g_str_has_prefix theme_name "Yaru" then
        if g_str_equal theme_name "Yaru" || g_str_equal theme_name "Yaru-dark" then
          { self with yaru_accent := some "default" }
        else if c_char_at theme_name 4 = '-' then
          let theme_variant := g_strsplit theme_name '-'
          if theme_variant.length > 1 then
            { self with yaru_accent := theme_variant.get? 1 }
          else self
        else self
      else self
    if g_strcmp0 old_accent self.yaru_accent ≠ 0 then (self, [PROP_YARU_ACCENT])
    else (self, [])

/-- The tags of `AdwYaruAccentSource`. -/
inductive AdwYaruAccentSource where
  | ADW_YARU_ACCENT_SOURCE_NONE
  | ADW_YARU_ACCENT_SOURCE_PORTAL
  | ADW_YARU_ACCENT_SOURCE_GTK
  | ADW_YARU_ACCENT_SOURCE_GSETTINGS
  deriving DecidableEq

open AdwYaruAccentSource

/-- The function `update_yaru_accent_from_gsettings`; the returned `Bool` is the
C return value. -/
def update_yaru_accent_from_gsettings (env : Env) (self : AdwSettings) :
    AdwSettings × List PropId × Bool :=
  match self.gsettings_impl with
  | none => (self, [], false)
  | some _ =>
    match env.gsettings_interface_gtk_theme with
    | none => (self, [], false)
    | some theme_name =>
      let r := update_yaru_accent_from_theme self theme_name
      (r.1, r.2, true)

/-- The function `update_yaru_accent_from_gtk`. -/
def update_yaru_accent_from_gtk (env : Env) (self : AdwSettings) :
    AdwSettings × List PropId × Bool :=
  match env.gdk_display_gtk_theme_name with
  | none => (self, [], false)
  | some none => (self, [], false)
  | some (some theme_name) =>
    let r := update_yaru_accent_from_theme self theme_name
    (r.1, r.2, true)

/-- The function `update_yaru_accent_from_portal`. -/
def update_yaru_accent_from_portal (env : Env) (self : AdwSettings) :
    AdwSettings × List PropId × Bool :=
  if !env.portal_enabled then (self, [], false)
  else
    match env.portal_read_gtk_theme with
    | some theme_name =>
      let r := update_yaru_accent_from_theme self theme_name
      (r.1, r.2, true)
    | none => (self, [], false)

/-- The function `update_yaru_accent`: portal, then GTK, then GSettings. -/
def update_yaru_accent (env : Env) (self : AdwSettings) :
    AdwSettings × List PropId × AdwYaruAccentSource :=
  let r1 := update_yaru_accent_from_portal env self
  if r1.2.2 then (r1.1, r1.2.1, ADW_YARU_ACCENT_SOURCE_PORTAL)
  else
    let r2 := update_yaru_accent_from_gtk env r1.1
    if r2.2.2 then (r2.1, r1.2.1 ++ r2.2.1, ADW_YARU_ACCENT_SOURCE_GTK)
    else
      let r3 := update_yaru_accent_from_gsettings env r2.1
      if r3.2.2 then (r3.1, r1.2.1 ++ r2.2.1 ++ r3.2.1, ADW_YARU_ACCENT_SOURCE_GSETTINGS)
      else (r3.1, r1.2.1 ++ r2.2.1 ++ r3.2.1, ADW_YARU_ACCENT_SOURCE_NONE)

/-- The function `init_yaru_accents`: the `switch` only connects signal
handlers, which changes no field and emits nothing. -/
def init_yaru_accents (env : Env) (self : AdwSettings) : AdwSettings × List PropId :=
  let r := update_yaru_accent env self
  (r.1, r.2.1)

/-- The function `adw_settings_constructed` (the branch taken when neither
`__APPLE__` nor `G_OS_WIN32` is defined). -/
def adw_settings_constructed (env : Env) (self : AdwSettings) : AdwSettings × List PropId :=
  let found_color_scheme := false
  let found_high_contrast := false
  let (self, found_color_scheme, found_high_contrast) :=
    init_debug env self found_color_scheme found_high_contrast
  let (self, found_color_scheme, found_high_contrast, n1) :=
    if !found_color_scheme || !found_high_contrast then
      let impl := env.adw_settings_impl_portal_new (!found_color_scheme) (!found_high_contrast)
      register_impl { self with platform_impl := some impl } impl
        found_color_scheme found_high_contrast
    else (self, found_color_scheme, found_high_contrast, [])
  let (self, found_color_scheme, found_high_contrast, n2) :=
    if !found_color_scheme || !found_high_contrast then
      let impl := env.adw_settings_impl_gsettings_new (!found_color_scheme) (!found_high_contrast)
      register_impl { self with gsettings_impl := some impl } impl
        found_color_scheme found_high_contrast
    else (self, found_color_scheme, found_high_contrast, [])
  let (self, found_color_scheme, _, n3) :=
    if !found_color_scheme || !found_high_contrast then
      let impl := env.adw_settings_impl_legacy_new (!found_color_scheme) (!found_high_contrast)
      register_impl { self with legacy_impl := some impl } impl
        found_color_scheme found_high_contrast
    else (self, found_color_scheme, found_high_contrast, [])
  let self := { self with system_supports_color_schemes := found_color_scheme }
  let r := init_yaru_accents env self
  (r.1, n1 ++ n2 ++ n3 ++ r.2)

/-- The object `g_object_new (ADW_TYPE_SETTINGS, NULL)` yields: a zero-filled
instance on which `adw_settings_constructed` has run. -/
def adw_settings_new (env : Env) : AdwSettings :=
  (adw_settings_constructed env adw_settings_init).1

/-- The getter `adw_settings_get_system_supports_color_schemes`. -/
def adw_settings_get_system_supports_color_schemes (self : AdwSettings) : Bool :=
  if self.override then self.system_supports_color_schemes_override
  else self.system_supports_color_schemes

/-- The getter `adw_settings_get_color_scheme`. -/
def adw_settings_get_color_scheme (self : AdwSettings) : AdwSystemColorScheme :=
  if self.override then self.color_scheme_override
  else self.color_scheme

/-- The getter `adw_settings_get_high_contrast`. -/
def adw_settings_get_high_contrast (self : AdwSettings) : Bool :=
  if self.override then self.high_contrast_override
  else self.high_contrast

/-- The getter `adw_settings_get_yaru_accent`. -/
def adw_settings_get_yaru_accent (self : AdwSettings) : Option String :=
  self.yaru_accent

/-- The function `adw_settings_start_override`. -/
def adw_settings_start_override (self : AdwSettings) : AdwSettings × List PropId :=
  if self.override then (self, [])
  else
    ({ self with
        override := true
        system_supports_color_schemes_override := self.system_supports_color_schemes
        color_scheme_override := self.color_scheme
        high_contrast_override := self.high_contrast }, [])

/-- The function `adw_settings_end_override`. -/
def adw_settings_end_override (env : Env) (self : AdwSettings) : AdwSettings × List PropId :=
  if !self.override then (self, [])
  else
    let notify_system_supports_color_scheme :=
      self.system_supports_color_schemes_override != self.system_supports_color_schemes
    let notify_color_scheme := decide (self.color_scheme_override ≠ self.color_scheme)
    let notify_hc := self.high_contrast_override != self.high_contrast
    let self :=
      { self with
          override := false
          system_supports_color_schemes_override := false
          color_scheme_override := ADW_SYSTEM_COLOR_SCHEME_DEFAULT
          high_contrast_override := false }
    let n1 := if notify_system_supports_color_scheme then [PROP_SYSTEM_SUPPORTS_COLOR_SCHEMES] else []
    let n2 := if notify_color_scheme then [PROP_COLOR_SCHEME] else []
    let n3 := if notify_hc then [PROP_HIGH_CONTRAST] else []
    let r := update_yaru_accent env self
    (r.1, n1 ++ n2 ++ n3 ++ r.2.1)

/-- The function `adw_settings_override_color_scheme`; `g_return_if_fail
(self->override)` returns at once when no override is active. -/
def adw_settings_override_color_scheme (self : AdwSettings)
    (color_scheme : AdwSystemColorScheme) : AdwSettings × List PropId :=
  if !self.override then (self, [])
  else if color_scheme = self.color_scheme_override ||
      !self.system_supports_color_schemes_override then (self, [])
  else ({ self with color_scheme_override := color_scheme }, [PROP_COLOR_SCHEME])

/-- The function `adw_settings_override_system_supports_color_schemes`. -/
def adw_settings_override_system_supports_color_schemes (self : AdwSettings)
    (system_supports_color_schemes : Bool) : AdwSettings × List PropId :=
  if !self.override then (self, [])
  else if system_supports_color_schemes = self.system_supports_color_schemes_override then
    (self, [])
  else
    let r :=
      if !system_supports_color_schemes then
        adw_settings_override_color_scheme self ADW_SYSTEM_COLOR_SCHEME_DEFAULT
      else (self, [])
    ({ r.1 with system_supports_color_schemes_override := system_supports_color_schemes },
      r.2 ++ [PROP_SYSTEM_SUPPORTS_COLOR_SCHEMES])

/-- The function `adw_settings_override_high_contrast`. -/
def adw_settings_override_high_contrast (self : AdwSettings) (high_contrast : Bool) :
    AdwSettings × List PropId :=
  if !self.override then (self, [])
  else if high_contrast = self.high_contrast_override then (self, [])
  else ({ self with high_contrast_override := high_contrast }, [PROP_HIGH_CONTRAST])

/-! ## The fallback chain of `adw_settings_constructed`, stage by stage

The three `if (!found_color_scheme || !found_high_contrast) { ... }` blocks of
`adw_settings_constructed` have one shape.  `chain_step` is that block; the
`after_*` states are the object and the two flags after `init_debug` and after
each block.  `constructed_eq` below shows that `adw_settings_constructed` is
their composition. -/

/-- One block of the chain: `new` is the backend constructor and `store` writes
the new object into its field of `self`.  The tuple is `self`, the two found
flags and the notifications emitted so far. -/
def chain_step (new : Bool → Bool → AdwSettingsImpl)
    (store : AdwSettings → AdwSettingsImpl → AdwSettings)
    (st : AdwSettings × Bool × Bool × List PropId) : AdwSettings × Bool × Bool × List PropId :=
  if !st.2.1 || !st.2.2.1 then
    let impl := new (!st.2.1) (!st.2.2.1)
    let r := register_impl (store st.1 impl) impl st.2.1 st.2.2.1
    (r.1, r.2.1, r.2.2.1, st.2.2.2 ++ r.2.2.2)
  else st

/-- The object and the found flags right after `init_debug`. -/
def after_debug (env : Env) : AdwSettings × Bool × Bool × List PropId :=
  ((init_debug env adw_settings_init false false).1,
    (init_debug env adw_settings_init false false).2.1,
    (init_debug env adw_settings_init false false).2.2, [])

/-- The object and the found flags after the platform block. -/
def after_platform (env : Env) : AdwSettings × Bool × Bool × List PropId :=
  chain_step env.adw_settings_impl_portal_new (fun s i => { s with platform_impl := some i })
    (after_debug env)

/-- The object and the found flags after the GSettings block. -/
def after_gsettings (env : Env) : AdwSettings × Bool × Bool × List PropId :=
  chain_step env.adw_settings_impl_gsettings_new (fun s i => { s with gsettings_impl := some i })
    (after_platform env)

/-- The object and the found flags after the legacy block. -/
def after_legacy (env : Env) : AdwSettings × Bool × Bool × List PropId :=
  chain_step env.adw_settings_impl_legacy_new (fun s i => { s with legacy_impl := some i })
    (after_gsettings env)

/-- Whether the platform block runs. -/
def platform_created (env : Env) : Bool :=
  !(after_debug env).2.1 || !(after_debug env).2.2.1

/-- The platform backend as the platform block creates it. -/
def platform_report (env : Env) : AdwSettingsImpl :=
  env.adw_settings_impl_portal_new (!(after_debug env).2.1) (!(after_debug env).2.2.1)

/-- Whether the GSettings block runs. -/
def gsettings_created (env : Env) : Bool :=
  !(after_platform env).2.1 || !(after_platform env).2.2.1

/-- The GSettings backend as the GSettings block creates it. -/
def gsettings_report (env : Env) : AdwSettingsImpl :=
  env.adw_settings_impl_gsettings_new (!(after_platform env).2.1) (!(after_platform env).2.2.1)

/-- Whether the legacy block runs. -/
def legacy_created (env : Env) : Bool :=
  !(after_gsettings env).2.1 || !(after_gsettings env).2.2.1

/-- The legacy backend as the legacy block creates it. -/
def legacy_report (env : Env) : AdwSettingsImpl :=
  env.adw_settings_impl_legacy_new (!(after_gsettings env).2.1) (!(after_gsettings env).2.2.1)

/-- The branches of `init_debug` on `ADW_DEBUG_HIGH_CONTRAST`, as a table. -/
def debug_high_contrast (v : Option String) : Option Bool :=
  if v = some "1" then some true else if v = some "0" then some false else none

/-- The branches of `init_debug` on `ADW_DEBUG_COLOR_SCHEME`, as a table. -/
def debug_color_scheme (v : Option String) : Option AdwSystemColorScheme :=
  if v = some "default" then some ADW_SYSTEM_COLOR_SCHEME_DEFAULT
  else if v = some "prefer-dark" then some ADW_SYSTEM_COLOR_SCHEME_PREFER_DARK
  else if v = some "prefer-light" then some ADW_SYSTEM_COLOR_SCHEME_PREFER_LIGHT
  else none

/-! ## Notions used to state the properties -/

/-- The color scheme a backend object reports, if it reports having one. -/
def reported_color_scheme (impl : Option AdwSettingsImpl) : Option AdwSystemColorScheme :=
  match impl with
  | some i => if i.has_color_scheme then some i.color_scheme else none
  | none => none

/-- The high-contrast value a backend object reports, if it reports having one. -/
def reported_high_contrast (impl : Option AdwSettingsImpl) : Option Bool :=
  match impl with
  | some i => if i.has_high_contrast then some i.high_contrast else none
  | none => none

/-- The color scheme of the earliest backend of the object, in the order platform,
GSettings, legacy, that reports having one. -/
def first_reported_color_scheme (self : AdwSettings) : Option AdwSystemColorScheme :=
  ([self.platform_impl, self.gsettings_impl, self.legacy_impl].filterMap
    reported_color_scheme).head?

/-- The high-contrast value of the earliest backend of the object, in the order
platform, GSettings, legacy, that reports having one. -/
def first_reported_high_contrast (self : AdwSettings) : Option Bool :=
  ([self.platform_impl, self.gsettings_impl, self.legacy_impl].filterMap
    reported_high_contrast).head?

/-- The contract of the two arguments of a backend constructor
(`enable_color_scheme`, `enable_high_contrast`): a backend does not report a
setting it was not enabled for.  The constructors are not part of
`adw-settings.c`; `register_impl` itself does not look at the found flags. -/
def honours_enable_flags (new : Bool → Bool → AdwSettingsImpl) : Prop :=
  ∀ enable_color_scheme enable_high_contrast : Bool,
    ((new enable_color_scheme enable_high_contrast).has_color_scheme = true →
      enable_color_scheme = true) ∧
    ((new enable_color_scheme enable_high_contrast).has_high_contrast = true →
      enable_high_contrast = true)

/-- All three backend constructors keep to `honours_enable_flags`. -/
def Env.backends_honour_enable_flags (env : Env) : Prop :=
  honours_enable_flags env.adw_settings_impl_portal_new ∧
  honours_enable_flags env.adw_settings_impl_gsettings_new ∧
  honours_enable_flags env.adw_settings_impl_legacy_new

/-- A backend constructor that has the report `r` at hand and gives out of it
what it is enabled for. -/
def backend_of_report (r : AdwSettingsImpl) (enable_color_scheme enable_high_contrast : Bool) :
    AdwSettingsImpl :=
  { r with
    has_color_scheme := enable_color_scheme && r.has_color_scheme
    has_high_contrast := enable_high_contrast && r.has_high_contrast }

/-- No source of `update_yaru_accent` yields a theme name: the portal is not
enabled or its read fails, there is no display or no `gtk-theme-name` setting,
and there is no GSettings backend or it has no interface settings. -/
def no_theme_source (env : Env) (self : AdwSettings) : Prop :=
  (env.portal_enabled = false ∨ env.portal_read_gtk_theme = none) ∧
  (env.gdk_display_gtk_theme_name = none ∨ env.gdk_display_gtk_theme_name = some none) ∧
  (self.gsettings_impl = none ∨ env.gsettings_interface_gtk_theme = none)

/-- The variant named by the part of a theme name after `Yaru-`: its characters
up to, not including, its first `-` or its end. -/
def yaru_variant (rest : String) : String :=
  String.mk (rest.data.takeWhile fun c => c ≠ '-')


/-! ## `AdwMessageDialog` responses

`adw-message-dialog.c` is not among the sources; `tests/test-message-dialog.c`
calls it.  The dialog is modelled as far as the responses and the heading go. -/

/-- The enumeration `AdwResponseAppearance`. -/
inductive AdwResponseAppearance where
  | ADW_RESPONSE_DEFAULT
  | ADW_RESPONSE_SUGGESTED
  | ADW_RESPONSE_DESTRUCTIVE
  deriving DecidableEq

open AdwResponseAppearance

/-- Modelled from the spec: a response, the "named action identifier attached to
a dialog button, carrying a label, enabled state, and visual appearance class"
(the response record of `adw-message-dialog.c` is missing). -/
structure ResponseInfo where
  id : String
  label : String
  appearance : AdwResponseAppearance
  enabled : Bool
  deriving DecidableEq

/-- Modelled from the spec: the `AdwMessageDialog` object of the missing
`adw-message-dialog.c`, reduced to its heading and its responses in the order
they were added. -/
structure AdwMessageDialog where
  heading : String
  responses : List ResponseInfo
  deriving DecidableEq

/-- Modelled from the spec: `adw_message_dialog_new (parent, heading, body)` of
the missing `adw-message-dialog.c`; a `NULL` heading gives the empty heading the
test reads back, and the dialog starts without responses. -/
def adw_message_dialog_new (heading : Option String) : AdwMessageDialog :=
  { heading := heading.getD "", responses := [] }

/-- Modelled from the spec: the lookup of a response by its identifier (missing
`adw-message-dialog.c`). -/
def find_response (self : AdwMessageDialog) (response : String) : Option ResponseInfo :=
  self.responses.find? fun r => decide (r.id = response)

/-- Modelled from the spec: `adw_message_dialog_has_response` of the missing
`adw-message-dialog.c`. -/
def adw_message_dialog_has_response (self : AdwMessageDialog) (response : String) : Bool :=
  (find_response self response).isSome

/-- Modelled from the spec: `adw_message_dialog_add_response (self, id, label)`
of the missing `adw-message-dialog.c`.  The new response carries the label, is
enabled and has the default appearance; an identifier already in use is a
precondition violation and changes nothing. -/
def adw_message_dialog_add_response (self : AdwMessageDialog) (id label : String) :
    AdwMessageDialog :=
  if adw_message_dialog_has_response self id then self
  else
    { self with
      responses := self.responses ++
        [{ id := id, label := label, appearance := ADW_RESPONSE_DEFAULT, enabled := true }] }

/-- Modelled from the spec: `adw_message_dialog_add_responses (self, id, label,
..., NULL)` of the missing `adw-message-dialog.c`: `add_response` for each
pair, first to last. -/
def adw_message_dialog_add_responses (self : AdwMessageDialog)
    (pairs : List (String × String)) : AdwMessageDialog :=
  pairs.foldl (fun d p => adw_message_dialog_add_response d p.1 p.2) self

/-- Modelled from the spec: `adw_message_dialog_get_response_label` of the
missing `adw-message-dialog.c`; `none` is the `NULL` of an unknown identifier. -/
def adw_message_dialog_get_response_label (self : AdwMessageDialog) (response : String) :
    Option String :=
  (find_response self response).map fun r => r.label

/-- Modelled from the spec: `adw_message_dialog_get_response_enabled` of the
missing `adw-message-dialog.c`; `FALSE` for an unknown identifier. -/
def adw_message_dialog_get_response_enabled (self : AdwMessageDialog) (response : String) :
    Bool :=
  match find_response self response with
  | some r => r.enabled
  | none => false

/-- Modelled from the spec: `adw_message_dialog_get_response_appearance` of the
missing `adw-message-dialog.c`; `ADW_RESPONSE_DEFAULT` for an unknown
identifier. -/
def adw_message_dialog_get_response_appearance (self : AdwMessageDialog) (response : String) :
    AdwResponseAppearance :=
  match find_response self response with
  | some r => r.appearance
  | none => ADW_RESPONSE_DEFAULT


/-- Modelled from the spec: `adw_message_dialog_remove_response (self, id)` of
the missing `adw-message-dialog.c`: the response with that identifier is taken
out, every other response stays as it is. -/
def adw_message_dialog_remove_response (self : AdwMessageDialog) (id : String) :
    AdwMessageDialog :=
  { self with responses := self.responses.filter fun r => !decide (r.id = id) }

/-- The properties of the dialog whose `notify::` emissions are modelled. -/
inductive DialogPropId where
  | PROP_HEADING
  deriving DecidableEq

open DialogPropId

/-- Modelled from the spec: `adw_message_dialog_get_heading` of the missing
`adw-message-dialog.c`. -/
def adw_message_dialog_get_heading (self : AdwMessageDialog) : String :=
  self.heading

/-- Modelled from the spec: `adw_message_dialog_set_heading (self, heading)` of
the missing `adw-message-dialog.c`, with the `notify::heading` emissions it
makes: "setting heading emits exactly one notify signal"; setting the heading
the dialog already has changes nothing. -/
def adw_message_dialog_set_heading (self : AdwMessageDialog) (heading : String) :
    AdwMessageDialog × List DialogPropId :=
  if heading = self.heading then (self, [])
  else ({ self with heading := heading }, [PROP_HEADING])

/-! ## Operations on a constructed `AdwSettings` -/

/-- What can be done to a constructed object: the two backend callbacks
(`set_color_scheme`, `set_high_contrast`, connected by `register_impl`), the
start and the end of an override (the end reads the theme-name sources as they
are then), and the three override setters. -/
inductive Op where
  | backend_color_scheme (color_scheme : AdwSystemColorScheme)
  | backend_high_contrast (high_contrast : Bool)
  | start_override
  | end_override (env : Env)
  | override_system_supports_color_schemes (system_supports_color_schemes : Bool)
  | override_color_scheme (color_scheme : AdwSystemColorScheme)
  | override_high_contrast (high_contrast : Bool)

/-- The function of `adw-settings.c` an operation stands for, applied. -/
def Op.apply (op : Op) (self : AdwSettings) : AdwSettings × List PropId :=
  match op with
  | .backend_color_scheme c => set_color_scheme self c
  | .backend_high_contrast b => set_high_contrast self b
  | .start_override => adw_settings_start_override self
  | .end_override env => adw_settings_end_override env self
  | .override_system_supports_color_schemes b =>
    adw_settings_override_system_supports_color_schemes self b
  | .override_color_scheme c => adw_settings_override_color_scheme self c
  | .override_high_contrast b => adw_settings_override_high_contrast self b

/-- A sequence of operations, first to last, with all the notifications emitted. -/
def run_ops (ops : List Op) (self : AdwSettings) : AdwSettings × List PropId :=
  ops.foldl (fun st op => ((op.apply st.1).1, st.2 ++ (op.apply st.1).2)) (self, [])

/-- The operation is a call of one of the three `adw_settings_override_*` setters. -/
def Op.is_override_setter : Op → Bool
  | .override_system_supports_color_schemes _ => true
  | .override_color_scheme _ => true
  | .override_high_contrast _ => true
  | _ => false

/-- The operation is a change delivered by a backend. -/
def Op.is_backend_change : Op → Bool
  | .backend_color_scheme _ => true
  | .backend_high_contrast _ => true
  | _ => false

/-- The color scheme last delivered by the backends in a sequence of operations,
`color_scheme` when none was. -/
def delivered_color_scheme (color_scheme : AdwSystemColorScheme) (ops : List Op) :
    AdwSystemColorScheme :=
  ops.foldl (fun c op => match op with | .backend_color_scheme c1 => c1 | _ => c) color_scheme

/-- The high-contrast value last delivered by the backends in a sequence of
operations, `high_contrast` when none was. -/
def delivered_high_contrast (high_contrast : Bool) (ops : List Op) : Bool :=
  ops.foldl (fun b op => match op with | .backend_high_contrast b1 => b1 | _ => b) high_contrast

/-- Whether `register_impl` connected `set_color_scheme` to a backend of the
object: it does so for a backend that reports having a color scheme. -/
def color_scheme_changed_connected (self : AdwSettings) : Bool :=
  [self.platform_impl, self.gsettings_impl, self.legacy_impl].any fun o =>
    match o with
    | some i => i.has_color_scheme
    | none => false

/-- Whether `register_impl` connected `set_high_contrast` to a backend of the
object: it does so for a backend that reports having high contrast. -/
def high_contrast_changed_connected (self : AdwSettings) : Bool :=
  [self.platform_impl, self.gsettings_impl, self.legacy_impl].any fun o =>
    match o with
    | some i => i.has_high_contrast
    | none => false

/-- An operation can take place on the object: a backend callback needs a
backend it was connected to, everything else is a public function. -/
def Op.possible (op : Op) (self : AdwSettings) : Bool :=
  match op with
  | .backend_color_scheme _ => color_scheme_changed_connected self
  | .backend_high_contrast _ => high_contrast_changed_connected self
  | _ => true

/-- The states reachable from the object constructed in `env` by backend
callbacks, start and end of an override and the override setters. -/
inductive Reachable (env : Env) : AdwSettings → Prop where
  | constructed : Reachable env (adw_settings_new env)
  | step (self : AdwSettings) (op : Op) :
      Reachable env self → op.possible self = true → Reachable env (op.apply self).1

/-- The three observable settings of the object, as its getters return them:
`adw_settings_get_system_supports_color_schemes`, `adw_settings_get_color_scheme`
and `adw_settings_get_high_contrast`. -/
def observable (self : AdwSettings) : Bool × AdwSystemColorScheme × Bool :=
  (adw_settings_get_system_supports_color_schemes self, adw_settings_get_color_scheme self,
    adw_settings_get_high_contrast self)

/-- The notifications of an operation track the observable changes: for each of
the properties system-supports-color-schemes, color-scheme and high-contrast
the notify is emitted at most once, and it is emitted if and only if the getter
returns another value after the operation than before. -/
def notifications_track_changes (before after : AdwSettings) (notified : List PropId) : Prop :=
  (notified.count PROP_SYSTEM_SUPPORTS_COLOR_SCHEMES ≤ 1 ∧
    (PROP_SYSTEM_SUPPORTS_COLOR_SCHEMES ∈ notified ↔
      adw_settings_get_system_supports_color_schemes after ≠
        adw_settings_get_system_supports_color_schemes before)) ∧
  (notified.count PROP_COLOR_SCHEME ≤ 1 ∧
    (PROP_COLOR_SCHEME ∈ notified ↔
      adw_settings_get_color_scheme after ≠ adw_settings_get_color_scheme before)) ∧
  (notified.count PROP_HIGH_CONTRAST ≤ 1 ∧
    (PROP_HIGH_CONTRAST ∈ notified ↔
      adw_settings_get_high_contrast after ≠ adw_settings_get_high_contrast before))

/-- The invariant behind "color scheme needs support": a system without color
scheme support holds the default color scheme and has no backend connected that
could deliver another, and an override without support holds the default
color scheme. -/
def color_scheme_needs_support (self : AdwSettings) : Prop :=
  (self.system_supports_color_schemes = false →
    self.color_scheme = ADW_SYSTEM_COLOR_SCHEME_DEFAULT ∧
    color_scheme_changed_connected self = false) ∧
  (self.override = true → self.system_supports_color_schemes_override = false →
    self.color_scheme_override = ADW_SYSTEM_COLOR_SCHEME_DEFAULT)

/-- The source `update_yaru_accent` takes the theme name from, with that name:
the portal if it is enabled and its read succeeds, else the GTK display setting
if there is a display and it has the setting, else GSettings if the object has
a GSettings backend with interface settings. -/
def first_theme_source (env : Env) (self : AdwSettings) :
    Option (AdwYaruAccentSource × String) :=
  match (if env.portal_enabled then env.portal_read_gtk_theme else none) with
  | some t => some (ADW_YARU_ACCENT_SOURCE_PORTAL, t)
  | none =>
    match env.gdk_display_gtk_theme_name.join with
    | some t => some (ADW_YARU_ACCENT_SOURCE_GTK, t)
    | none =>
      match (if self.gsettings_impl.isSome then env.gsettings_interface_gtk_theme else none) with
      | some t => some (ADW_YARU_ACCENT_SOURCE_GSETTINGS, t)
      | none => none

/-- What the specification says `update_yaru_accent` does: one call of
`update_yaru_accent_from_theme` with the theme name of the first source and the
tag of that source, or nothing and `ADW_YARU_ACCENT_SOURCE_NONE`. -/
def update_yaru_accent_spec (env : Env) (self : AdwSettings) :
    AdwSettings × List PropId × AdwYaruAccentSource :=
  match first_theme_source env self with
  | some (source, theme_name) =>
    ((update_yaru_accent_from_theme self theme_name).1,
      (update_yaru_accent_from_theme self theme_name).2, source)
  | none => (self, [], ADW_YARU_ACCENT_SOURCE_NONE)

/-! ## Concrete environments and objects -/

/-- An environment without debug variables and without theme-name source: the
portal knows a dark color scheme only, GSettings knows a light color scheme and
high contrast on, the legacy backend knows high contrast off. -/
def env_mixed : Env :=
  { ADW_DEBUG_HIGH_CONTRAST := none
    ADW_DEBUG_COLOR_SCHEME := none
    adw_settings_impl_portal_new :=
      backend_of_report ⟨true, ADW_SYSTEM_COLOR_SCHEME_PREFER_DARK, false, false⟩
    adw_settings_impl_gsettings_new :=
      backend_of_report ⟨true, ADW_SYSTEM_COLOR_SCHEME_PREFER_LIGHT, true, true⟩
    adw_settings_impl_legacy_new :=
      backend_of_report ⟨false, ADW_SYSTEM_COLOR_SCHEME_DEFAULT, true, false⟩
    portal_enabled := false
    portal_read_gtk_theme := none
    gdk_display_gtk_theme_name := none
    gsettings_interface_gtk_theme := none }

/-- The environment `env_mixed` with `ADW_DEBUG_COLOR_SCHEME=prefer-light`. -/
def env_debug_light : Env :=
  { env_mixed with ADW_DEBUG_COLOR_SCHEME := some "prefer-light" }

/-- An environment in which nothing is available: no debug variable, backends
that report nothing, no theme-name source. -/
def env_bare : Env :=
  { ADW_DEBUG_HIGH_CONTRAST := none
    ADW_DEBUG_COLOR_SCHEME := none
    adw_settings_impl_portal_new :=
      backend_of_report ⟨false, ADW_SYSTEM_COLOR_SCHEME_DEFAULT, false, false⟩
    adw_settings_impl_gsettings_new :=
      backend_of_report ⟨false, ADW_SYSTEM_COLOR_SCHEME_DEFAULT, false, false⟩
    adw_settings_impl_legacy_new :=
      backend_of_report ⟨false, ADW_SYSTEM_COLOR_SCHEME_DEFAULT, false, false⟩
    portal_enabled := false
    portal_read_gtk_theme := none
    gdk_display_gtk_theme_name := none
    gsettings_interface_gtk_theme := none }

/-- A dialog holding the one response `response1`. -/
def dialog_one : AdwMessageDialog :=
  adw_message_dialog_add_response (adw_message_dialog_new none) "response1" "Response 1"

/-- An environment like `env_bare` in which the portal is enabled and gives the
theme name `Yaru-blue`. -/
def env_yaru_blue : Env :=
  { env_bare with portal_enabled := true, portal_read_gtk_theme := some "Yaru-blue" }

/-- An object with an override active whose overridden high contrast differs
from the system value. -/
def settings_overridden : AdwSettings :=
  { adw_settings_init with override := true, high_contrast_override := true }

/-- A dialog holding the responses `response1` and `response2`. -/
def dialog_two : AdwMessageDialog :=
  adw_message_dialog_add_response dialog_one "response2" "Response 2"

/-! ## Lemmas

First the frame of each function (which fields it can change), then the
fallback chain in closed form (`adw_settings_new_eq`), then the facts the claims
are assembled from. -/

theorem register_impl_found_cs (self : AdwSettings) (impl : AdwSettingsImpl) (a b : Bool) :
    (register_impl self impl a b).2.1 = (impl.has_color_scheme || a) := by
  unfold register_impl
  cases h1 : impl.has_color_scheme <;> cases h2 : impl.has_high_contrast <;> simp

theorem register_impl_self (self : AdwSettings) (impl : AdwSettingsImpl) (a b : Bool) :
    (register_impl self impl a b).1 =
      { self with
        color_scheme := if impl.has_color_scheme then impl.color_scheme else self.color_scheme
        high_contrast := if impl.has_high_contrast then impl.high_contrast else self.high_contrast } := by
  unfold register_impl set_color_scheme set_high_contrast
  cases h1 : impl.has_color_scheme <;> cases h2 : impl.has_high_contrast <;> simp <;>
   split_ifs <;> simp_all

theorem register_impl_found_hc (self : AdwSettings) (impl : AdwSettingsImpl) (a b : Bool) :
    (register_impl self impl a b).2.2.1 = (impl.has_high_contrast || b) := by
  unfold register_impl
  cases h1 : impl.has_color_scheme <;> cases h2 : impl.has_high_contrast <;> simp

theorem update_yaru_accent_from_theme_fields (self : AdwSettings) (t : String) :
    (update_yaru_accent_from_theme self t).1 =
      { self with yaru_accent := (update_yaru_accent_from_theme self t).1.yaru_accent } := by
  unfold update_yaru_accent_from_theme
  simp only []
  split_ifs <;> rfl

theorem constructed_eq (env : Env) :
    (adw_settings_constructed env adw_settings_init).1 =
      (init_yaru_accents env
        { (after_legacy env).1 with system_supports_color_schemes := (after_legacy env).2.1 }).1 := by
  unfold adw_settings_constructed after_legacy after_gsettings after_platform after_debug chain_step
  simp only []
  split_ifs <;> rfl

theorem g_strcmp0_eq_zero (a b : Option String) : g_strcmp0 a b = 0 ↔ a = b := by
  unfold g_strcmp0
  cases a <;> cases b <;> simp
  split_ifs <;> simp_all

theorem init_debug_eq (env : Env) (self : AdwSettings) (a b : Bool) :
    init_debug env self a b =
      ({ self with
          color_scheme := (debug_color_scheme env.ADW_DEBUG_COLOR_SCHEME).getD self.color_scheme
          high_contrast := (debug_high_contrast env.ADW_DEBUG_HIGH_CONTRAST).getD self.high_contrast },
        a || (debug_color_scheme env.ADW_DEBUG_COLOR_SCHEME).isSome,
        b || (debug_high_contrast env.ADW_DEBUG_HIGH_CONTRAST).isSome) := by
  unfold init_debug debug_color_scheme debug_high_contrast
  simp only [g_strcmp0_eq_zero]
  cases h1 : env.ADW_DEBUG_HIGH_CONTRAST <;> cases h2 : env.ADW_DEBUG_COLOR_SCHEME
  · simp
  · simp only []
    split_ifs <;> simp_all
  · simp only []
    split_ifs <;> simp_all
  · simp only []
    split_ifs <;> simp_all

theorem update_yaru_accent_from_gsettings_fields (env : Env) (self : AdwSettings) :
    (update_yaru_accent_from_gsettings env self).1 =
      { self with yaru_accent := (update_yaru_accent_from_gsettings env self).1.yaru_accent } := by
  unfold update_yaru_accent_from_gsettings
  split
  · rfl
  · split
    · rfl
    · exact update_yaru_accent_from_theme_fields _ _

theorem update_yaru_accent_from_gtk_fields (env : Env) (self : AdwSettings) :
    (update_yaru_accent_from_gtk env self).1 =
      { self with yaru_accent := (update_yaru_accent_from_gtk env self).1.yaru_accent } := by
  unfold update_yaru_accent_from_gtk
  split
  · rfl
  · rfl
  · exact update_yaru_accent_from_theme_fields _ _

theorem update_yaru_accent_from_portal_fields (env : Env) (self : AdwSettings) :
    (update_yaru_accent_from_portal env self).1 =
      { self with yaru_accent := (update_yaru_accent_from_portal env self).1.yaru_accent } := by
  unfold update_yaru_accent_from_portal
  split
  · rfl
  · split
    · exact update_yaru_accent_from_theme_fields _ _
    · rfl

theorem update_yaru_accent_fields (env : Env) (self : AdwSettings) :
    (update_yaru_accent env self).1 =
      { self with yaru_accent := (update_yaru_accent env self).1.yaru_accent } := by
  have h1 := update_yaru_accent_from_portal_fields env self
  have h2 := update_yaru_accent_from_gtk_fields env (update_yaru_accent_from_portal env self).1
  have h3 := update_yaru_accent_from_gsettings_fields env
    (update_yaru_accent_from_gtk env (update_yaru_accent_from_portal env self).1).1
  unfold update_yaru_accent
  simp only []
  split_ifs
  · exact h1
  · rw [h2, h1]
  · rw [h3, h2, h1]
  · rw [h3, h2, h1]

theorem init_yaru_accents_fields (env : Env) (self : AdwSettings) :
    (init_yaru_accents env self).1 =
      { self with yaru_accent := (init_yaru_accents env self).1.yaru_accent } :=
  update_yaru_accent_fields env self

theorem chain_step_self (new : Bool → Bool → AdwSettingsImpl)
    (store : AdwSettings → AdwSettingsImpl → AdwSettings)
    (st : AdwSettings × Bool × Bool × List PropId) :
    (chain_step new store st).1 =
      if !st.2.1 || !st.2.2.1 then
        { store st.1 (new (!st.2.1) (!st.2.2.1)) with
            color_scheme :=
              if (new (!st.2.1) (!st.2.2.1)).has_color_scheme then
                (new (!st.2.1) (!st.2.2.1)).color_scheme
              else (store st.1 (new (!st.2.1) (!st.2.2.1))).color_scheme
            high_contrast :=
              if (new (!st.2.1) (!st.2.2.1)).has_high_contrast then
                (new (!st.2.1) (!st.2.2.1)).high_contrast
              else (store st.1 (new (!st.2.1) (!st.2.2.1))).high_contrast }
      else st.1 := by
  unfold chain_step
  by_cases h : (!st.2.1 || !st.2.2.1) = true
  · rw [if_pos h, if_pos h]
    simp only [register_impl_self]
  · rw [if_neg h, if_neg h]

theorem chain_step_found_cs (new : Bool → Bool → AdwSettingsImpl)
    (store : AdwSettings → AdwSettingsImpl → AdwSettings)
    (st : AdwSettings × Bool × Bool × List PropId) :
    (chain_step new store st).2.1 =
      (st.2.1 || ((!st.2.1 || !st.2.2.1) && (new (!st.2.1) (!st.2.2.1)).has_color_scheme)) := by
  unfold chain_step
  by_cases h : (!st.2.1 || !st.2.2.1) = true
  · rw [if_pos h]
    simp only [register_impl_found_cs, h, Bool.true_and, Bool.or_comm]
  · rw [if_neg h]
    simp only [Bool.not_eq_true] at h
    simp [h]

theorem chain_step_found_hc (new : Bool → Bool → AdwSettingsImpl)
    (store : AdwSettings → AdwSettingsImpl → AdwSettings)
    (st : AdwSettings × Bool × Bool × List PropId) :
    (chain_step new store st).2.2.1 =
      (st.2.2.1 || ((!st.2.1 || !st.2.2.1) && (new (!st.2.1) (!st.2.2.1)).has_high_contrast)) := by
  unfold chain_step
  by_cases h : (!st.2.1 || !st.2.2.1) = true
  · rw [if_pos h]
    simp only [register_impl_found_hc, h, Bool.true_and, Bool.or_comm]
  · rw [if_neg h]
    simp only [Bool.not_eq_true] at h
    simp [h]

theorem after_debug_self (env : Env) :
    (after_debug env).1 =
      { adw_settings_init with
          color_scheme := (after_debug env).1.color_scheme
          high_contrast := (after_debug env).1.high_contrast } := by
  unfold after_debug
  simp only [init_debug_eq]

theorem after_platform_self (env : Env) :
    (after_platform env).1 =
      { adw_settings_init with
          platform_impl := if platform_created env then some (platform_report env) else none
          color_scheme :=
            if platform_created env && (platform_report env).has_color_scheme then
              (platform_report env).color_scheme
            else (after_debug env).1.color_scheme
          high_contrast :=
            if platform_created env && (platform_report env).has_high_contrast then
              (platform_report env).high_contrast
            else (after_debug env).1.high_contrast } := by
  unfold after_platform
  rw [chain_step_self]
  change (if platform_created env = true then _ else _) = _
  cases platform_created env
  · simp only [Bool.false_eq_true, if_false, Bool.false_and]
    exact after_debug_self env
  · simp only [if_true, Bool.true_and]
    rw [after_debug_self env]
    rfl

theorem after_gsettings_self (env : Env) :
    (after_gsettings env).1 =
      { adw_settings_init with
          platform_impl := (after_platform env).1.platform_impl
          gsettings_impl := if gsettings_created env then some (gsettings_report env) else none
          color_scheme :=
            if gsettings_created env && (gsettings_report env).has_color_scheme then
              (gsettings_report env).color_scheme
            else (after_platform env).1.color_scheme
          high_contrast :=
            if gsettings_created env && (gsettings_report env).has_high_contrast then
              (gsettings_report env).high_contrast
            else (after_platform env).1.high_contrast } := by
  unfold after_gsettings
  rw [chain_step_self]
  change (if gsettings_created env = true then _ else _) = _
  cases gsettings_created env
  · simp only [Bool.false_eq_true, if_false, Bool.false_and]
    rw [after_platform_self env]
    rfl
  · simp only [if_true, Bool.true_and]
    rw [after_platform_self env]
    rfl

theorem after_legacy_self (env : Env) :
    (after_legacy env).1 =
      { adw_settings_init with
          platform_impl := (after_platform env).1.platform_impl
          gsettings_impl := (after_gsettings env).1.gsettings_impl
          legacy_impl := if legacy_created env then some (legacy_report env) else none
          color_scheme :=
            if legacy_created env && (legacy_report env).has_color_scheme then
              (legacy_report env).color_scheme
            else (after_gsettings env).1.color_scheme
          high_contrast :=
            if legacy_created env && (legacy_report env).has_high_contrast then
              (legacy_report env).high_contrast
            else (after_gsettings env).1.high_contrast } := by
  unfold after_legacy
  rw [chain_step_self]
  change (if legacy_created env = true then _ else _) = _
  cases legacy_created env
  · simp only [Bool.false_eq_true, if_false, Bool.false_and]
    rw [after_gsettings_self env]
    rfl
  · simp only [if_true, Bool.true_and]
    rw [after_gsettings_self env]
    rfl

theorem after_platform_found_cs (env : Env) :
    (after_platform env).2.1 =
      ((after_debug env).2.1 || (platform_created env && (platform_report env).has_color_scheme)) :=
  chain_step_found_cs _ _ _

theorem after_platform_found_hc (env : Env) :
    (after_platform env).2.2.1 =
      ((after_debug env).2.2.1 ||
        (platform_created env && (platform_report env).has_high_contrast)) :=
  chain_step_found_hc _ _ _

theorem after_gsettings_found_cs (env : Env) :
    (after_gsettings env).2.1 =
      ((after_platform env).2.1 ||
        (gsettings_created env && (gsettings_report env).has_color_scheme)) :=
  chain_step_found_cs _ _ _

theorem after_gsettings_found_hc (env : Env) :
    (after_gsettings env).2.2.1 =
      ((after_platform env).2.2.1 ||
        (gsettings_created env && (gsettings_report env).has_high_contrast)) :=
  chain_step_found_hc _ _ _

theorem after_legacy_found_cs (env : Env) :
    (after_legacy env).2.1 =
      ((after_gsettings env).2.1 ||
        (legacy_created env && (legacy_report env).has_color_scheme)) :=
  chain_step_found_cs _ _ _

theorem after_debug_found_cs (env : Env) :
    (after_debug env).2.1 = (debug_color_scheme env.ADW_DEBUG_COLOR_SCHEME).isSome := by
  unfold after_debug
  simp only [init_debug_eq, Bool.false_or]

theorem after_debug_found_hc (env : Env) :
    (after_debug env).2.2.1 = (debug_high_contrast env.ADW_DEBUG_HIGH_CONTRAST).isSome := by
  unfold after_debug
  simp only [init_debug_eq, Bool.false_or]

theorem after_debug_color_scheme (env : Env) :
    (after_debug env).1.color_scheme =
      (debug_color_scheme env.ADW_DEBUG_COLOR_SCHEME).getD ADW_SYSTEM_COLOR_SCHEME_DEFAULT := by
  unfold after_debug
  simp only [init_debug_eq]
  rfl

theorem after_debug_high_contrast (env : Env) :
    (after_debug env).1.high_contrast =
      (debug_high_contrast env.ADW_DEBUG_HIGH_CONTRAST).getD false := by
  unfold after_debug
  simp only [init_debug_eq]
  rfl

/-- The constructed object, field by field. -/
theorem adw_settings_new_eq (env : Env) :
    adw_settings_new env =
      { adw_settings_init with
          platform_impl := if platform_created env then some (platform_report env) else none
          gsettings_impl := if gsettings_created env then some (gsettings_report env) else none
          legacy_impl := if legacy_created env then some (legacy_report env) else none
          color_scheme := (after_legacy env).1.color_scheme
          high_contrast := (after_legacy env).1.high_contrast
          system_supports_color_schemes := (after_legacy env).2.1
          yaru_accent := (adw_settings_new env).yaru_accent } := by
  unfold adw_settings_new
  rw [constructed_eq, init_yaru_accents_fields]
  rw [after_legacy_self, after_gsettings_self, after_platform_self]

theorem honours_platform (env : Env) (h : env.backends_honour_enable_flags) :
    ((platform_report env).has_color_scheme = true → (after_debug env).2.1 = false) ∧
    ((platform_report env).has_high_contrast = true → (after_debug env).2.2.1 = false) := by
  have h1 := h.1 (!(after_debug env).2.1) (!(after_debug env).2.2.1)
  unfold platform_report
  constructor
  · intro hc; simpa using h1.1 hc
  · intro hc; simpa using h1.2 hc

theorem honours_gsettings (env : Env) (h : env.backends_honour_enable_flags) :
    ((gsettings_report env).has_color_scheme = true → (after_platform env).2.1 = false) ∧
    ((gsettings_report env).has_high_contrast = true → (after_platform env).2.2.1 = false) := by
  have h1 := h.2.1 (!(after_platform env).2.1) (!(after_platform env).2.2.1)
  unfold gsettings_report
  constructor
  · intro hc; simpa using h1.1 hc
  · intro hc; simpa using h1.2 hc

theorem honours_legacy (env : Env) (h : env.backends_honour_enable_flags) :
    ((legacy_report env).has_color_scheme = true → (after_gsettings env).2.1 = false) ∧
    ((legacy_report env).has_high_contrast = true → (after_gsettings env).2.2.1 = false) := by
  have h1 := h.2.2 (!(after_gsettings env).2.1) (!(after_gsettings env).2.2.1)
  unfold legacy_report
  constructor
  · intro hc; simpa using h1.1 hc
  · intro hc; simpa using h1.2 hc

theorem first_wins_color (env : Env) (h : env.backends_honour_enable_flags)
    (c : AdwSystemColorScheme)
    (hc : first_reported_color_scheme (adw_settings_new env) = some c) :
    adw_settings_get_color_scheme (adw_settings_new env) = c := by
  have hP := (honours_platform env h).1
  have hG := (honours_gsettings env h).1
  have hL := (honours_legacy env h).1
  rw [adw_settings_new_eq] at hc ⊢
  simp only [first_reported_color_scheme, adw_settings_get_color_scheme, adw_settings_init,
    after_legacy_self, after_gsettings_self, after_platform_self,
    after_gsettings_found_cs, after_platform_found_cs] at hc hG hL ⊢
  generalize (after_debug env).1.color_scheme = c0 at *
  generalize (after_debug env).2.1 = a0 at *
  generalize platform_created env = k1 at *
  generalize gsettings_created env = k2 at *
  generalize legacy_created env = k3 at *
  generalize platform_report env = P at *
  generalize gsettings_report env = G at *
  generalize legacy_report env = L at *
  obtain ⟨pc, pv, ph, pw⟩ := P
  obtain ⟨gc, gv, gh, gw⟩ := G
  obtain ⟨lc, lv, lh, lw⟩ := L
  cases a0 <;> cases k1 <;> cases k2 <;> cases k3 <;> cases pc <;> cases gc <;> cases lc <;>
    simp_all [reported_color_scheme]

theorem first_wins_high_contrast (env : Env) (h : env.backends_honour_enable_flags)
    (v : Bool)
    (hv : first_reported_high_contrast (adw_settings_new env) = some v) :
    adw_settings_get_high_contrast (adw_settings_new env) = v := by
  have hP := (honours_platform env h).2
  have hG := (honours_gsettings env h).2
  have hL := (honours_legacy env h).2
  rw [adw_settings_new_eq] at hv ⊢
  simp only [first_reported_high_contrast, adw_settings_get_high_contrast, adw_settings_init,
    after_legacy_self, after_gsettings_self, after_platform_self,
    after_gsettings_found_hc, after_platform_found_hc] at hv hG hL ⊢
  generalize (after_debug env).1.high_contrast = c0 at *
  generalize (after_debug env).2.2.1 = a0 at *
  generalize platform_created env = k1 at *
  generalize gsettings_created env = k2 at *
  generalize legacy_created env = k3 at *
  generalize platform_report env = P at *
  generalize gsettings_report env = G at *
  generalize legacy_report env = L at *
  obtain ⟨pc, pv, ph, pw⟩ := P
  obtain ⟨gc, gv, gh, gw⟩ := G
  obtain ⟨lc, lv, lh, lw⟩ := L
  cases a0 <;> cases k1 <;> cases k2 <;> cases k3 <;> cases ph <;> cases gh <;> cases lh <;>
    simp_all [reported_high_contrast]

theorem debug_color_scheme_isSome (v : Option String) :
    (debug_color_scheme v).isSome = true ↔
      v = some "default" ∨ v = some "prefer-dark" ∨ v = some "prefer-light" := by
  unfold debug_color_scheme
  split_ifs <;> simp_all

theorem g_strsplit_fields_head (d : Char) (l : List Char) :
    ∃ fs, g_strsplit_fields d l = (l.takeWhile fun c => c ≠ d) :: fs := by
  induction l with
  | nil => exact ⟨[], rfl⟩
  | cons c cs ih =>
    obtain ⟨fs, hfs⟩ := ih
    by_cases hc : c = d
    · exact ⟨g_strsplit_fields d cs, by simp [g_strsplit_fields, hc]⟩
    · exact ⟨fs, by simp [g_strsplit_fields, hc, hfs]⟩

theorem g_str_has_prefix_iff (str pre : String) :
    g_str_has_prefix str pre = true ↔ ∃ rest : String, str = pre ++ rest := by
  unfold g_str_has_prefix
  rw [List.isPrefixOf_iff_prefix]
  constructor
  · rintro ⟨t, ht⟩
    exact ⟨String.mk t, by apply String.ext; simpa using ht.symm⟩
  · rintro ⟨rest, rfl⟩
    exact ⟨rest.data, by simp⟩

theorem yaru_dash_accent (self : AdwSettings) (rest : String) (ho : self.override = false)
    (hne : "Yaru-" ++ rest ≠ "Yaru-dark") :
    adw_settings_get_yaru_accent (update_yaru_accent_from_theme self ("Yaru-" ++ rest)).1 =
      some (yaru_variant rest) := by
  have hp : g_str_has_prefix ("Yaru-" ++ rest) "Yaru" = true :=
    (g_str_has_prefix_iff _ _).2 ⟨"-" ++ rest, by apply String.ext; simp⟩
  have hd : ("Yaru-" ++ rest).data = 'Y' :: 'a' :: 'r' :: 'u' :: '-' :: rest.data := by
    rw [String.data_append]
    rfl
  have he1 : g_str_equal ("Yaru-" ++ rest) "Yaru" = false := by
    unfold g_str_equal
    rw [decide_eq_false_iff_not]
    intro h
    have h2 := congrArg String.data h
    rw [hd] at h2
    have h3 : "Yaru".data = ['Y', 'a', 'r', 'u'] := rfl
    rw [h3] at h2
    simp at h2
  have he2 : g_str_equal ("Yaru-" ++ rest) "Yaru-dark" = false := by
    unfold g_str_equal
    rw [decide_eq_false_iff_not]
    exact hne
  have h4 : c_char_at ("Yaru-" ++ rest) 4 = '-' := by
    unfold c_char_at
    rw [hd]
    rfl
  obtain ⟨fs, hfs⟩ := g_strsplit_fields_head '-' rest.data
  have hs : g_strsplit ("Yaru-" ++ rest) '-' =
      "Yaru" :: yaru_variant rest :: fs.map String.mk := by
    unfold g_strsplit yaru_variant
    rw [hd]
    simp [g_strsplit_fields, hfs]
  unfold update_yaru_accent_from_theme adw_settings_get_yaru_accent
  simp [ho, hp, he1, he2, h4, hs]
  split_ifs <;> rfl


theorem supports_iff (env : Env) :
    adw_settings_get_system_supports_color_schemes (adw_settings_new env) = true ↔
      ((env.ADW_DEBUG_COLOR_SCHEME = some "default" ∨
          env.ADW_DEBUG_COLOR_SCHEME = some "prefer-dark" ∨
          env.ADW_DEBUG_COLOR_SCHEME = some "prefer-light") ∨
        (∃ i, (adw_settings_new env).platform_impl = some i ∧ i.has_color_scheme = true) ∨
        (∃ i, (adw_settings_new env).gsettings_impl = some i ∧ i.has_color_scheme = true) ∨
        (∃ i, (adw_settings_new env).legacy_impl = some i ∧ i.has_color_scheme = true)) := by
  rw [← debug_color_scheme_isSome, ← after_debug_found_cs, adw_settings_new_eq]
  simp only [adw_settings_get_system_supports_color_schemes, adw_settings_init,
    after_legacy_found_cs, after_gsettings_found_cs, after_platform_found_cs]
  generalize (after_debug env).2.1 = a0 at *
  generalize platform_created env = k1 at *
  generalize gsettings_created env = k2 at *
  generalize legacy_created env = k3 at *
  generalize platform_report env = P at *
  generalize gsettings_report env = G at *
  generalize legacy_report env = L at *
  cases a0 <;> cases k1 <;> cases k2 <;> cases k3 <;> simp [or_assoc]

theorem priority_color (env : Env) (P G L : AdwSettingsImpl)
    (hP : env.adw_settings_impl_portal_new = backend_of_report P)
    (hG : env.adw_settings_impl_gsettings_new = backend_of_report G)
    (hL : env.adw_settings_impl_legacy_new = backend_of_report L)
    (hd : (init_debug env adw_settings_init false false).2.1 = false)
    (c : AdwSystemColorScheme)
    (hc : ([some P, some G, some L].filterMap reported_color_scheme).head? = some c) :
    adw_settings_get_color_scheme (adw_settings_new env) = c := by
  have hd2 : (after_debug env).2.1 = false := hd
  rw [adw_settings_new_eq]
  simp only [adw_settings_get_color_scheme, adw_settings_init,
    after_legacy_self, after_gsettings_self, after_platform_self,
    legacy_created, legacy_report, after_gsettings_found_cs, after_gsettings_found_hc,
    gsettings_created, gsettings_report, after_platform_found_cs, after_platform_found_hc,
    platform_created, platform_report, hd2, hP, hG, hL, backend_of_report] at hc ⊢
  generalize (after_debug env).1.color_scheme = c0 at *
  generalize (after_debug env).1.high_contrast = v0 at *
  generalize (after_debug env).2.2.1 = b0 at *
  obtain ⟨pc, pv, ph, pw⟩ := P
  obtain ⟨gc, gv, gh, gw⟩ := G
  obtain ⟨lc, lv, lh, lw⟩ := L
  cases b0 <;> cases pc <;> cases gc <;> cases lc <;> cases ph <;> cases gh <;> cases lh <;>
    simp_all [reported_color_scheme]

theorem priority_high_contrast (env : Env) (P G L : AdwSettingsImpl)
    (hP : env.adw_settings_impl_portal_new = backend_of_report P)
    (hG : env.adw_settings_impl_gsettings_new = backend_of_report G)
    (hL : env.adw_settings_impl_legacy_new = backend_of_report L)
    (hd : (init_debug env adw_settings_init false false).2.2 = false)
    (v : Bool)
    (hv : ([some P, some G, some L].filterMap reported_high_contrast).head? = some v) :
    adw_settings_get_high_contrast (adw_settings_new env) = v := by
  have hd2 : (after_debug env).2.2.1 = false := hd
  rw [adw_settings_new_eq]
  simp only [adw_settings_get_high_contrast, adw_settings_init,
    after_legacy_self, after_gsettings_self, after_platform_self,
    legacy_created, legacy_report, after_gsettings_found_cs, after_gsettings_found_hc,
    gsettings_created, gsettings_report, after_platform_found_cs, after_platform_found_hc,
    platform_created, platform_report, hd2, hP, hG, hL, backend_of_report] at hv ⊢
  generalize (after_debug env).1.color_scheme = c0 at *
  generalize (after_debug env).1.high_contrast = v0 at *
  generalize (after_debug env).2.1 = a0 at *
  obtain ⟨pc, pv, ph, pw⟩ := P
  obtain ⟨gc, gv, gh, gw⟩ := G
  obtain ⟨lc, lv, lh, lw⟩ := L
  cases a0 <;> cases pc <;> cases gc <;> cases lc <;> cases ph <;> cases gh <;> cases lh <;>
    simp_all [reported_high_contrast]


theorem update_yaru_accent_no_source (env : Env) (self : AdwSettings)
    (h : no_theme_source env self) :
    update_yaru_accent env self = (self, [], ADW_YARU_ACCENT_SOURCE_NONE) := by
  obtain ⟨h1, h2, h3⟩ := h
  have e1 : update_yaru_accent_from_portal env self = (self, [], false) := by
    unfold update_yaru_accent_from_portal
    rcases h1 with h1 | h1 <;> simp [h1]
  have e2 : update_yaru_accent_from_gtk env self = (self, [], false) := by
    unfold update_yaru_accent_from_gtk
    rcases h2 with h2 | h2 <;> simp [h2]
  have e3 : update_yaru_accent_from_gsettings env self = (self, [], false) := by
    unfold update_yaru_accent_from_gsettings
    rcases h3 with h3 | h3
    · simp [h3]
    · cases self.gsettings_impl <;> simp [h3]
  unfold update_yaru_accent
  simp [e1, e2, e3]

theorem new_accent_no_source (env : Env) (h : no_theme_source env (adw_settings_new env)) :
    adw_settings_get_yaru_accent (adw_settings_new env) = none := by
  have hg : (adw_settings_new env).gsettings_impl = (after_legacy env).1.gsettings_impl := by
    unfold adw_settings_new
    rw [constructed_eq, init_yaru_accents_fields]
  have hs : no_theme_source env
      { (after_legacy env).1 with system_supports_color_schemes := (after_legacy env).2.1 } := by
    refine ⟨h.1, h.2.1, ?_⟩
    rw [← hg]
    exact h.2.2
  unfold adw_settings_get_yaru_accent adw_settings_new
  rw [constructed_eq]
  unfold init_yaru_accents
  rw [update_yaru_accent_no_source env _ hs]
  rw [after_legacy_self]
  rfl

theorem no_report_color (env : Env)
    (hd : env.ADW_DEBUG_COLOR_SCHEME = none)
    (hp : ∀ i, (adw_settings_new env).platform_impl = some i → i.has_color_scheme = false)
    (hg : ∀ i, (adw_settings_new env).gsettings_impl = some i → i.has_color_scheme = false)
    (hl : ∀ i, (adw_settings_new env).legacy_impl = some i → i.has_color_scheme = false) :
    adw_settings_get_color_scheme (adw_settings_new env) = ADW_SYSTEM_COLOR_SCHEME_DEFAULT ∧
    adw_settings_get_system_supports_color_schemes (adw_settings_new env) = false := by
  have hc0 : (after_debug env).1.color_scheme = ADW_SYSTEM_COLOR_SCHEME_DEFAULT := by
    rw [after_debug_color_scheme, hd]; rfl
  have ha0 : (after_debug env).2.1 = false := by
    rw [after_debug_found_cs, hd]; rfl
  rw [adw_settings_new_eq] at hp hg hl ⊢
  simp only [adw_settings_get_color_scheme, adw_settings_get_system_supports_color_schemes,
    adw_settings_init, after_legacy_self, after_gsettings_self, after_platform_self,
    after_legacy_found_cs, after_gsettings_found_cs, after_platform_found_cs, hc0, ha0]
    at hp hg hl ⊢
  generalize platform_created env = k1 at *
  generalize gsettings_created env = k2 at *
  generalize legacy_created env = k3 at *
  generalize platform_report env = P at *
  generalize gsettings_report env = G at *
  generalize legacy_report env = L at *
  cases k1 <;> cases k2 <;> cases k3 <;> simp_all

theorem no_report_high_contrast (env : Env)
    (hd : env.ADW_DEBUG_HIGH_CONTRAST = none)
    (hp : ∀ i, (adw_settings_new env).platform_impl = some i → i.has_high_contrast = false)
    (hg : ∀ i, (adw_settings_new env).gsettings_impl = some i → i.has_high_contrast = false)
    (hl : ∀ i, (adw_settings_new env).legacy_impl = some i → i.has_high_contrast = false) :
    adw_settings_get_high_contrast (adw_settings_new env) = false := by
  have hc0 : (after_debug env).1.high_contrast = false := by
    rw [after_debug_high_contrast, hd]; rfl
  rw [adw_settings_new_eq] at hp hg hl ⊢
  simp only [adw_settings_get_high_contrast,
    adw_settings_init, after_legacy_self, after_gsettings_self, after_platform_self, hc0]
    at hp hg hl ⊢
  generalize platform_created env = k1 at *
  generalize gsettings_created env = k2 at *
  generalize legacy_created env = k3 at *
  generalize platform_report env = P at *
  generalize gsettings_report env = G at *
  generalize legacy_report env = L at *
  cases k1 <;> cases k2 <;> cases k3 <;> simp_all

theorem debug_color_kept (env : Env) (h : env.backends_honour_enable_flags)
    (c : AdwSystemColorScheme)
    (hd : debug_color_scheme env.ADW_DEBUG_COLOR_SCHEME = some c) :
    adw_settings_get_color_scheme (adw_settings_new env) = c := by
  have hP := (honours_platform env h).1
  have hG := (honours_gsettings env h).1
  have hL := (honours_legacy env h).1
  have hc0 : (after_debug env).1.color_scheme = c := by
    rw [after_debug_color_scheme, hd]; rfl
  have ha0 : (after_debug env).2.1 = true := by
    rw [after_debug_found_cs, hd]; rfl
  rw [adw_settings_new_eq]
  simp only [adw_settings_get_color_scheme, adw_settings_init,
    after_legacy_self, after_gsettings_self, after_platform_self,
    after_gsettings_found_cs, after_platform_found_cs, hc0, ha0] at hP hG hL ⊢
  generalize platform_created env = k1 at *
  generalize gsettings_created env = k2 at *
  generalize legacy_created env = k3 at *
  generalize platform_report env = P at *
  generalize gsettings_report env = G at *
  generalize legacy_report env = L at *
  cases k1 <;> cases k2 <;> cases k3 <;> simp_all


theorem yaru_base_accent (self : AdwSettings) (ho : self.override = false) :
    adw_settings_get_yaru_accent (update_yaru_accent_from_theme self "Yaru").1 = some "default" ∧
    adw_settings_get_yaru_accent (update_yaru_accent_from_theme self "Yaru-dark").1 =
      some "default" := by
  have h1 : g_str_has_prefix "Yaru" "Yaru" = true := by decide
  have h2 : g_str_has_prefix "Yaru-dark" "Yaru" = true := by decide
  have h3 : g_str_equal "Yaru" "Yaru" = true := by decide
  have h4 : g_str_equal "Yaru-dark" "Yaru-dark" = true := by decide
  unfold update_yaru_accent_from_theme adw_settings_get_yaru_accent
  constructor
  · simp only [ho, h1, h3, Bool.true_or, if_true, Bool.false_eq_true, if_false]
    split_ifs <;> rfl
  · simp only [ho, h2, h4, Bool.or_true, if_true, Bool.false_eq_true, if_false]
    split_ifs <;> rfl

theorem not_yaru_accent (self : AdwSettings) (theme_name : String) (ho : self.override = false)
    (h : g_str_has_prefix theme_name "Yaru" = false) :
    adw_settings_get_yaru_accent (update_yaru_accent_from_theme self theme_name).1 = none := by
  unfold update_yaru_accent_from_theme adw_settings_get_yaru_accent
  simp only [ho, h, Bool.false_eq_true, if_false]
  split_ifs <;> rfl

theorem yaru_other_accent (self : AdwSettings) (c : Char) (rest : String)
    (ho : self.override = false) (hc : c ≠ '-') :
    adw_settings_get_yaru_accent
      (update_yaru_accent_from_theme self ("Yaru" ++ String.singleton c ++ rest)).1 = none := by
  have hd : ("Yaru" ++ String.singleton c ++ rest).data =
      'Y' :: 'a' :: 'r' :: 'u' :: c :: rest.data := by
    rw [String.data_append, String.data_append]
    rfl
  have he1 : g_str_equal ("Yaru" ++ String.singleton c ++ rest) "Yaru" = false := by
    unfold g_str_equal
    rw [decide_eq_false_iff_not]
    intro h
    have h2 := congrArg String.data h
    rw [hd] at h2
    have h3 : "Yaru".data = ['Y', 'a', 'r', 'u'] := rfl
    rw [h3] at h2
    simp at h2
  have he2 : g_str_equal ("Yaru" ++ String.singleton c ++ rest) "Yaru-dark" = false := by
    unfold g_str_equal
    rw [decide_eq_false_iff_not]
    intro h
    have h2 := congrArg String.data h
    rw [hd] at h2
    have h3 : "Yaru-dark".data = ['Y', 'a', 'r', 'u', '-', 'd', 'a', 'r', 'k'] := rfl
    rw [h3] at h2
    simp at h2
    exact hc h2.1
  have h4 : c_char_at ("Yaru" ++ String.singleton c ++ rest) 4 = c := by
    unfold c_char_at
    rw [hd]
    rfl
  unfold update_yaru_accent_from_theme adw_settings_get_yaru_accent
  simp only [ho, he1, he2, h4, hc, Bool.false_eq_true, if_false, Bool.or_false]
  split_ifs <;> rfl

theorem override_setters_inactive (self : AdwSettings) (ho : self.override = false) :
    (∀ b, adw_settings_override_system_supports_color_schemes self b = (self, [])) ∧
    (∀ c, adw_settings_override_color_scheme self c = (self, [])) ∧
    (∀ b, adw_settings_override_high_contrast self b = (self, [])) := by
  refine ⟨fun b => ?_, fun c => ?_, fun b => ?_⟩
  · unfold adw_settings_override_system_supports_color_schemes
    simp [ho]
  · unfold adw_settings_override_color_scheme
    simp [ho]
  · unfold adw_settings_override_high_contrast
    simp [ho]


theorem find_response_add_fresh (self : AdwMessageDialog) (id label response : String)
    (hf : adw_message_dialog_has_response self id = false) :
    find_response (adw_message_dialog_add_response self id label) response =
      if response = id then
        some { id := id, label := label, appearance := ADW_RESPONSE_DEFAULT, enabled := true }
      else find_response self response := by
  have hn : find_response self id = none := by
    unfold adw_message_dialog_has_response at hf
    cases h : find_response self id
    · rfl
    · rw [h] at hf; simp at hf
  unfold adw_message_dialog_add_response
  rw [hf]
  simp only [Bool.false_eq_true, if_false]
  unfold find_response at hn ⊢
  simp only [List.find?_append, List.find?_singleton]
  by_cases hr : response = id
  · subst hr
    simp [hn]
  · have hr2 : ¬ id = response := fun e => hr e.symm
    simp [hr, hr2]

theorem find_response_add_other (self : AdwMessageDialog) (id label response : String)
    (hr : response ≠ id) :
    find_response (adw_message_dialog_add_response self id label) response =
      find_response self response := by
  unfold adw_message_dialog_add_response
  split_ifs
  · rfl
  · have hr2 : ¬ id = response := fun e => hr e.symm
    unfold find_response
    simp [List.find?_append, hr2]

theorem add_response_fresh (self : AdwMessageDialog) (id label : String)
    (hf : adw_message_dialog_has_response self id = false) :
    adw_message_dialog_get_response_label
        (adw_message_dialog_add_response self id label) id = some label ∧
    adw_message_dialog_get_response_enabled
        (adw_message_dialog_add_response self id label) id = true ∧
    adw_message_dialog_get_response_appearance
        (adw_message_dialog_add_response self id label) id = ADW_RESPONSE_DEFAULT := by
  unfold adw_message_dialog_get_response_label adw_message_dialog_get_response_enabled
    adw_message_dialog_get_response_appearance
  rw [find_response_add_fresh self id label id hf]
  simp

theorem add_response_keeps (self : AdwMessageDialog) (id label response : String)
    (hr : response ≠ id) :
    adw_message_dialog_has_response
        (adw_message_dialog_add_response self id label) response =
      adw_message_dialog_has_response self response ∧
    adw_message_dialog_get_response_label
        (adw_message_dialog_add_response self id label) response =
      adw_message_dialog_get_response_label self response ∧
    adw_message_dialog_get_response_enabled
        (adw_message_dialog_add_response self id label) response =
      adw_message_dialog_get_response_enabled self response ∧
    adw_message_dialog_get_response_appearance
        (adw_message_dialog_add_response self id label) response =
      adw_message_dialog_get_response_appearance self response := by
  unfold adw_message_dialog_has_response adw_message_dialog_get_response_label
    adw_message_dialog_get_response_enabled adw_message_dialog_get_response_appearance
  rw [find_response_add_other self id label response hr]
  exact ⟨rfl, rfl, rfl, rfl⟩


theorem find_response_add_present (self : AdwMessageDialog) (id label response : String)
    (x : ResponseInfo) (h : find_response self response = some x) :
    find_response (adw_message_dialog_add_response self id label) response = some x := by
  by_cases hr : response = id
  · subst hr
    unfold adw_message_dialog_add_response adw_message_dialog_has_response
    rw [h]
    simpa using h
  · rw [find_response_add_other self id label response hr, h]

theorem find_response_add_responses_present (pairs : List (String × String))
    (self : AdwMessageDialog) (response : String) (x : ResponseInfo)
    (h : find_response self response = some x) :
    find_response (adw_message_dialog_add_responses self pairs) response = some x := by
  induction pairs generalizing self with
  | nil => exact h
  | cons p ps ih =>
    exact ih (adw_message_dialog_add_response self p.1 p.2)
      (find_response_add_present self p.1 p.2 response x h)

theorem find_response_add_responses_absent (pairs : List (String × String))
    (self : AdwMessageDialog) (response : String)
    (h : find_response self response = none) (hp : response ∉ pairs.map Prod.fst) :
    find_response (adw_message_dialog_add_responses self pairs) response = none := by
  induction pairs generalizing self with
  | nil => exact h
  | cons p ps ih =>
    have h1 : response ≠ p.1 := fun e => hp (by simp [e])
    have h2 : response ∉ ps.map Prod.fst := fun e => hp (by simp at e ⊢; exact Or.inr e)
    exact ih (adw_message_dialog_add_response self p.1 p.2)
      (by rw [find_response_add_other self p.1 p.2 response h1, h]) h2

theorem find_response_add_responses_fresh (pre post : List (String × String))
    (self : AdwMessageDialog) (id label : String)
    (hf : adw_message_dialog_has_response self id = false) (hp : id ∉ pre.map Prod.fst) :
    find_response (adw_message_dialog_add_responses self (pre ++ (id, label) :: post)) id =
      some { id := id, label := label, appearance := ADW_RESPONSE_DEFAULT, enabled := true } := by
  have hn : find_response self id = none := by
    unfold adw_message_dialog_has_response at hf
    cases h : find_response self id
    · rfl
    · rw [h] at hf; simp at hf
  have h1 := find_response_add_responses_absent pre self id hn hp
  have h2 : adw_message_dialog_has_response (adw_message_dialog_add_responses self pre) id =
      false := by
    unfold adw_message_dialog_has_response
    rw [h1]; rfl
  have h3 := find_response_add_fresh (adw_message_dialog_add_responses self pre) id label id h2
  rw [if_pos rfl] at h3
  have h4 : adw_message_dialog_add_responses self (pre ++ (id, label) :: post) =
      adw_message_dialog_add_responses
        (adw_message_dialog_add_response (adw_message_dialog_add_responses self pre) id label)
        post := by
    unfold adw_message_dialog_add_responses
    rw [List.foldl_append, List.foldl_cons]
  rw [h4]
  exact find_response_add_responses_present post _ id _ h3

theorem end_override_inactive (env : Env) (self : AdwSettings) :
    (adw_settings_end_override env self).1.override = false := by
  unfold adw_settings_end_override
  cases ho : self.override
  · simp [ho]
  · simp only [Bool.not_true, Bool.false_eq_true, if_false]
    rw [update_yaru_accent_fields]

theorem new_override (env : Env) : (adw_settings_new env).override = false := by
  rw [adw_settings_new_eq]
  rfl

theorem backend_of_report_honours (r : AdwSettingsImpl) :
    honours_enable_flags (backend_of_report r) := by
  intro a b
  unfold backend_of_report
  cases a <;> cases b <;> simp

/-! ## Lemmas on the dialog, the operations and the theme sources -/

theorem find_response_remove_self (self : AdwMessageDialog) (a : String) :
    find_response (adw_message_dialog_remove_response self a) a = none := by
  unfold find_response adw_message_dialog_remove_response
  simp [List.find?_eq_none]

theorem find_response_remove_other (self : AdwMessageDialog) (a b : String) (h : b ≠ a) :
    find_response (adw_message_dialog_remove_response self a) b = find_response self b := by
  unfold find_response adw_message_dialog_remove_response
  simp only
  rw [List.find?_filter]
  congr 1
  funext r
  by_cases hb : r.id = b
  · have hr : ¬ r.id = a := fun e => h (hb.symm.trans e)
    simp [hb, hr, h]
  · simp [hb]

theorem update_yaru_accent_eq_spec (env : Env) (self : AdwSettings) :
    update_yaru_accent env self = update_yaru_accent_spec env self := by
  unfold update_yaru_accent update_yaru_accent_spec first_theme_source
    update_yaru_accent_from_portal update_yaru_accent_from_gtk update_yaru_accent_from_gsettings
  cases hpe : env.portal_enabled <;> cases hpr : env.portal_read_gtk_theme <;>
    rcases hg : env.gdk_display_gtk_theme_name with _ | _ | t <;>
    cases hs : self.gsettings_impl <;> cases hi : env.gsettings_interface_gtk_theme <;>
    simp [hs]

theorem update_yaru_accent_from_theme_notifications (self : AdwSettings) (t : String) :
    (update_yaru_accent_from_theme self t).2 = [] ∨
    (update_yaru_accent_from_theme self t).2 = [PROP_YARU_ACCENT] := by
  unfold update_yaru_accent_from_theme
  simp only []
  split_ifs <;> simp

theorem update_yaru_accent_notifications (env : Env) (self : AdwSettings) :
    (update_yaru_accent env self).2.1 = [] ∨
    (update_yaru_accent env self).2.1 = [PROP_YARU_ACCENT] := by
  rw [update_yaru_accent_eq_spec]
  unfold update_yaru_accent_spec
  split
  · exact update_yaru_accent_from_theme_notifications _ _
  · exact Or.inl rfl

theorem set_color_scheme_tracks (self : AdwSettings) (c : AdwSystemColorScheme) :
    notifications_track_changes self (set_color_scheme self c).1 (set_color_scheme self c).2 := by
  unfold notifications_track_changes set_color_scheme adw_settings_get_system_supports_color_schemes
    adw_settings_get_color_scheme adw_settings_get_high_contrast
  cases ho : self.override <;> by_cases hc : c = self.color_scheme <;> simp [ho, hc]

theorem set_high_contrast_tracks (self : AdwSettings) (b : Bool) :
    notifications_track_changes self (set_high_contrast self b).1 (set_high_contrast self b).2 := by
  unfold notifications_track_changes set_high_contrast adw_settings_get_system_supports_color_schemes
    adw_settings_get_color_scheme adw_settings_get_high_contrast
  cases ho : self.override <;> by_cases hc : b = self.high_contrast <;> simp [ho, hc]

theorem start_override_tracks (self : AdwSettings) :
    notifications_track_changes self (adw_settings_start_override self).1
      (adw_settings_start_override self).2 := by
  unfold notifications_track_changes adw_settings_start_override
    adw_settings_get_system_supports_color_schemes
    adw_settings_get_color_scheme adw_settings_get_high_contrast
  cases ho : self.override <;> simp [ho]

theorem override_color_scheme_tracks (self : AdwSettings) (c : AdwSystemColorScheme) :
    notifications_track_changes self (adw_settings_override_color_scheme self c).1
      (adw_settings_override_color_scheme self c).2 := by
  unfold notifications_track_changes adw_settings_override_color_scheme
    adw_settings_get_system_supports_color_schemes
    adw_settings_get_color_scheme adw_settings_get_high_contrast
  cases ho : self.override <;> cases hs : self.system_supports_color_schemes_override <;>
    by_cases hc : c = self.color_scheme_override <;> simp [ho, hc, hs]

theorem override_high_contrast_tracks (self : AdwSettings) (b : Bool) :
    notifications_track_changes self (adw_settings_override_high_contrast self b).1
      (adw_settings_override_high_contrast self b).2 := by
  unfold notifications_track_changes adw_settings_override_high_contrast
    adw_settings_get_system_supports_color_schemes
    adw_settings_get_color_scheme adw_settings_get_high_contrast
  cases ho : self.override <;> by_cases hc : b = self.high_contrast_override <;> simp [ho, hc]

theorem override_system_supports_tracks (self : AdwSettings) (b : Bool) :
    notifications_track_changes self
      (adw_settings_override_system_supports_color_schemes self b).1
      (adw_settings_override_system_supports_color_schemes self b).2 := by
  unfold notifications_track_changes adw_settings_override_system_supports_color_schemes
    adw_settings_override_color_scheme
    adw_settings_get_system_supports_color_schemes
    adw_settings_get_color_scheme adw_settings_get_high_contrast
  cases ho : self.override <;> cases hs : self.system_supports_color_schemes_override <;>
    cases b <;>
    by_cases hc : ADW_SYSTEM_COLOR_SCHEME_DEFAULT = self.color_scheme_override <;>
    simp [ho, hc, hs]

theorem end_override_tracks (env : Env) (self : AdwSettings) :
    notifications_track_changes self (adw_settings_end_override env self).1
      (adw_settings_end_override env self).2 := by
  unfold notifications_track_changes adw_settings_end_override
    adw_settings_get_system_supports_color_schemes
    adw_settings_get_color_scheme adw_settings_get_high_contrast
  cases ho : self.override
  · simp [ho]
  · simp only [Bool.not_true, Bool.false_eq_true, if_false]
    rw [update_yaru_accent_fields]
    rcases update_yaru_accent_notifications env
      { self with
          override := false
          system_supports_color_schemes_override := false
          color_scheme_override := ADW_SYSTEM_COLOR_SCHEME_DEFAULT
          high_contrast_override := false } with hn | hn <;>
      rw [hn] <;>
      cases h1 : self.system_supports_color_schemes_override <;>
      cases h2 : self.system_supports_color_schemes <;>
      cases h3 : self.high_contrast_override <;>
      cases h4 : self.high_contrast <;>
      by_cases h5 : self.color_scheme_override = self.color_scheme <;>
      simp [ho, h5]
    all_goals first | exact h5 | exact fun e => h5 e.symm

theorem run_ops_nil (self : AdwSettings) : run_ops [] self = (self, []) := rfl

theorem run_ops_snoc (ops : List Op) (op : Op) (self : AdwSettings) :
    run_ops (ops ++ [op]) self =
      ((op.apply (run_ops ops self).1).1,
        (run_ops ops self).2 ++ (op.apply (run_ops ops self).1).2) := by
  unfold run_ops
  rw [List.foldl_append]
  rfl

theorem delivered_color_scheme_snoc (c : AdwSystemColorScheme) (ops : List Op) (op : Op) :
    delivered_color_scheme c (ops ++ [op]) =
      match op with
      | .backend_color_scheme c1 => c1
      | _ => delivered_color_scheme c ops := by
  unfold delivered_color_scheme
  rw [List.foldl_append]
  cases op <;> rfl

theorem delivered_high_contrast_snoc (b : Bool) (ops : List Op) (op : Op) :
    delivered_high_contrast b (ops ++ [op]) =
      match op with
      | .backend_high_contrast b1 => b1
      | _ => delivered_high_contrast b ops := by
  unfold delivered_high_contrast
  rw [List.foldl_append]
  cases op <;> rfl

/-- While an override is active a backend callback or an override setter keeps
it active, keeps the support flag of the system, and moves the system color
scheme and high contrast only by what a backend delivers. -/
theorem during_override_step (self : AdwSettings) (op : Op) (ho : self.override = true)
    (hop : op.is_override_setter = true ∨ op.is_backend_change = true) :
    (op.apply self).1.override = true ∧
    (op.apply self).1.system_supports_color_schemes = self.system_supports_color_schemes ∧
    (op.apply self).1.color_scheme =
      (match op with
        | .backend_color_scheme c1 => c1
        | _ => self.color_scheme) ∧
    (op.apply self).1.high_contrast =
      (match op with
        | .backend_high_contrast b1 => b1
        | _ => self.high_contrast) := by
  cases op with
  | backend_color_scheme c =>
    unfold Op.apply set_color_scheme
    by_cases hc : c = self.color_scheme <;> simp [ho, hc]
  | backend_high_contrast b =>
    unfold Op.apply set_high_contrast
    by_cases hc : b = self.high_contrast <;> simp [ho, hc]
  | start_override => simp [Op.is_override_setter, Op.is_backend_change] at hop
  | end_override env => simp [Op.is_override_setter, Op.is_backend_change] at hop
  | override_system_supports_color_schemes b =>
    unfold Op.apply adw_settings_override_system_supports_color_schemes
      adw_settings_override_color_scheme
    simp only [ho]
    split_ifs <;> simp_all
  | override_color_scheme c =>
    unfold Op.apply adw_settings_override_color_scheme
    simp only [ho]
    split_ifs <;> simp_all
  | override_high_contrast b =>
    unfold Op.apply adw_settings_override_high_contrast
    simp only [ho]
    split_ifs <;> simp_all

theorem during_override_run (self : AdwSettings) (ops : List Op) (ho : self.override = true)
    (hops : ∀ op ∈ ops, op.is_override_setter = true ∨ op.is_backend_change = true) :
    (run_ops ops self).1.override = true ∧
    (run_ops ops self).1.system_supports_color_schemes = self.system_supports_color_schemes ∧
    (run_ops ops self).1.color_scheme = delivered_color_scheme self.color_scheme ops ∧
    (run_ops ops self).1.high_contrast = delivered_high_contrast self.high_contrast ops := by
  induction ops using List.reverseRecOn with
  | nil => exact ⟨ho, rfl, rfl, rfl⟩
  | append_singleton ops op ih =>
    have ih := ih (fun o ho => hops o (List.mem_append_left _ ho))
    have hop := hops op (List.mem_append_right _ (List.mem_singleton.2 rfl))
    have hs := during_override_step (run_ops ops self).1 op ih.1 hop
    rw [run_ops_snoc, delivered_color_scheme_snoc, delivered_high_contrast_snoc]
    refine ⟨hs.1, hs.2.1.trans ih.2.1, ?_, ?_⟩
    · rw [hs.2.2.1]
      cases op <;> simp [ih.2.2.1]
    · rw [hs.2.2.2]
      cases op <;> simp [ih.2.2.2]

theorem delivered_of_setters (ops : List Op)
    (hops : ∀ op ∈ ops, op.is_override_setter = true)
    (c : AdwSystemColorScheme) (b : Bool) :
    delivered_color_scheme c ops = c ∧ delivered_high_contrast b ops = b := by
  induction ops using List.reverseRecOn with
  | nil => exact ⟨rfl, rfl⟩
  | append_singleton ops op ih =>
    have ih := ih (fun o ho => hops o (List.mem_append_left _ ho))
    have hop := hops op (List.mem_append_right _ (List.mem_singleton.2 rfl))
    rw [delivered_color_scheme_snoc, delivered_high_contrast_snoc]
    cases op <;> simp_all [Op.is_override_setter]

theorem end_override_getters (env : Env) (self : AdwSettings) :
    adw_settings_get_system_supports_color_schemes (adw_settings_end_override env self).1 =
      self.system_supports_color_schemes ∧
    adw_settings_get_color_scheme (adw_settings_end_override env self).1 = self.color_scheme ∧
    adw_settings_get_high_contrast (adw_settings_end_override env self).1 =
      self.high_contrast := by
  unfold adw_settings_end_override adw_settings_get_system_supports_color_schemes
    adw_settings_get_color_scheme adw_settings_get_high_contrast
  cases ho : self.override
  · simp [ho]
  · simp only [Bool.not_true, Bool.false_eq_true, if_false]
    rw [update_yaru_accent_fields]
    simp

theorem start_override_getters (self : AdwSettings) :
    adw_settings_get_system_supports_color_schemes (adw_settings_start_override self).1 =
      adw_settings_get_system_supports_color_schemes self ∧
    adw_settings_get_color_scheme (adw_settings_start_override self).1 =
      adw_settings_get_color_scheme self ∧
    adw_settings_get_high_contrast (adw_settings_start_override self).1 =
      adw_settings_get_high_contrast self := by
  unfold adw_settings_start_override adw_settings_get_system_supports_color_schemes
    adw_settings_get_color_scheme adw_settings_get_high_contrast
  cases ho : self.override <;> simp [ho]

theorem start_override_fields (self : AdwSettings) :
    (adw_settings_start_override self).1.override = true ∧
    (adw_settings_start_override self).1.system_supports_color_schemes =
      self.system_supports_color_schemes ∧
    (adw_settings_start_override self).1.color_scheme = self.color_scheme ∧
    (adw_settings_start_override self).1.high_contrast = self.high_contrast := by
  unfold adw_settings_start_override
  cases ho : self.override <;> simp [ho]

theorem backend_change_during_override (self : AdwSettings) (op : Op)
    (ho : self.override = true) (hop : op.is_backend_change = true) :
    (op.apply self).1.override = true ∧
    (op.apply self).1.system_supports_color_schemes_override =
      self.system_supports_color_schemes_override ∧
    (op.apply self).1.color_scheme_override = self.color_scheme_override ∧
    (op.apply self).1.high_contrast_override = self.high_contrast_override ∧
    (op.apply self).2 = [] := by
  cases op with
  | backend_color_scheme c =>
    unfold Op.apply set_color_scheme
    by_cases hc : c = self.color_scheme <;> simp [ho, hc]
  | backend_high_contrast b =>
    unfold Op.apply set_high_contrast
    by_cases hc : b = self.high_contrast <;> simp [ho, hc]
  | start_override => simp [Op.is_backend_change] at hop
  | end_override env => simp [Op.is_backend_change] at hop
  | override_system_supports_color_schemes b => simp [Op.is_backend_change] at hop
  | override_color_scheme c => simp [Op.is_backend_change] at hop
  | override_high_contrast b => simp [Op.is_backend_change] at hop

theorem backend_changes_during_override (self : AdwSettings) (ops : List Op)
    (ho : self.override = true) (hops : ∀ op ∈ ops, op.is_backend_change = true) :
    (run_ops ops self).1.override = true ∧
    (run_ops ops self).1.system_supports_color_schemes_override =
      self.system_supports_color_schemes_override ∧
    (run_ops ops self).1.color_scheme_override = self.color_scheme_override ∧
    (run_ops ops self).1.high_contrast_override = self.high_contrast_override ∧
    (run_ops ops self).2 = [] := by
  induction ops using List.reverseRecOn with
  | nil => exact ⟨ho, rfl, rfl, rfl, rfl⟩
  | append_singleton ops op ih =>
    have ih := ih (fun o ho => hops o (List.mem_append_left _ ho))
    have hop := hops op (List.mem_append_right _ (List.mem_singleton.2 rfl))
    have hs := backend_change_during_override (run_ops ops self).1 op ih.1 hop
    rw [run_ops_snoc]
    exact ⟨hs.1, hs.2.1.trans ih.2.1, hs.2.2.1.trans ih.2.2.1, hs.2.2.2.1.trans ih.2.2.2.1,
      by simp [ih.2.2.2.2, hs.2.2.2.2]⟩

theorem getters_during_override (self : AdwSettings) (ho : self.override = true) :
    adw_settings_get_system_supports_color_schemes self =
      self.system_supports_color_schemes_override ∧
    adw_settings_get_color_scheme self = self.color_scheme_override ∧
    adw_settings_get_high_contrast self = self.high_contrast_override := by
  unfold adw_settings_get_system_supports_color_schemes adw_settings_get_color_scheme
    adw_settings_get_high_contrast
  simp [ho]

theorem color_scheme_needs_support_new (env : Env) :
    color_scheme_needs_support (adw_settings_new env) := by
  unfold color_scheme_needs_support
  rw [adw_settings_new_eq]
  simp only [color_scheme_changed_connected, adw_settings_init,
    after_legacy_self, after_gsettings_self, after_platform_self,
    after_legacy_found_cs, after_gsettings_found_cs, after_platform_found_cs,
    after_debug_color_scheme, after_debug_found_cs]
  generalize debug_color_scheme env.ADW_DEBUG_COLOR_SCHEME = d
  generalize platform_created env = k1
  generalize gsettings_created env = k2
  generalize legacy_created env = k3
  generalize platform_report env = P
  generalize gsettings_report env = G
  generalize legacy_report env = L
  cases d <;> cases k1 <;> cases k2 <;> cases k3 <;> simp <;> intros <;> simp_all

theorem op_frame (op : Op) (self : AdwSettings) :
    (op.apply self).1.platform_impl = self.platform_impl ∧
    (op.apply self).1.gsettings_impl = self.gsettings_impl ∧
    (op.apply self).1.legacy_impl = self.legacy_impl ∧
    (op.apply self).1.system_supports_color_schemes = self.system_supports_color_schemes ∧
    (op.apply self).1.color_scheme =
      (match op with
        | .backend_color_scheme c1 => c1
        | _ => self.color_scheme) := by
  cases op with
  | backend_color_scheme c =>
    unfold Op.apply set_color_scheme
    by_cases hc : c = self.color_scheme <;> cases ho : self.override <;> simp [hc, ho]
  | backend_high_contrast b =>
    unfold Op.apply set_high_contrast
    by_cases hc : b = self.high_contrast <;> cases ho : self.override <;> simp [hc, ho]
  | start_override =>
    unfold Op.apply adw_settings_start_override
    cases ho : self.override <;> simp [ho]
  | end_override env =>
    unfold Op.apply adw_settings_end_override
    cases ho : self.override
    · simp [ho]
    · simp only [Bool.not_true, Bool.false_eq_true, if_false]
      rw [update_yaru_accent_fields]
      simp
  | override_system_supports_color_schemes b =>
    unfold Op.apply adw_settings_override_system_supports_color_schemes
      adw_settings_override_color_scheme
    simp only []
    split_ifs <;> simp
  | override_color_scheme c =>
    unfold Op.apply adw_settings_override_color_scheme
    simp only []
    split_ifs <;> simp
  | override_high_contrast b =>
    unfold Op.apply adw_settings_override_high_contrast
    simp only []
    split_ifs <;> simp

theorem op_override_part (op : Op) (self : AdwSettings)
    (hA : self.system_supports_color_schemes = false →
      self.color_scheme = ADW_SYSTEM_COLOR_SCHEME_DEFAULT)
    (hB : self.override = true → self.system_supports_color_schemes_override = false →
      self.color_scheme_override = ADW_SYSTEM_COLOR_SCHEME_DEFAULT) :
    (op.apply self).1.override = true →
      (op.apply self).1.system_supports_color_schemes_override = false →
      (op.apply self).1.color_scheme_override = ADW_SYSTEM_COLOR_SCHEME_DEFAULT := by
  cases op with
  | backend_color_scheme c =>
    unfold Op.apply set_color_scheme
    by_cases hc : c = self.color_scheme <;> cases ho : self.override <;> simp [hc, ho]
    all_goals exact hB ho
  | backend_high_contrast b =>
    unfold Op.apply set_high_contrast
    by_cases hc : b = self.high_contrast <;> cases ho : self.override <;> simp [hc, ho]
    all_goals exact hB ho
  | start_override =>
    unfold Op.apply adw_settings_start_override
    cases ho : self.override
    · simpa [ho] using hA
    · simpa [ho] using hB ho
  | end_override env =>
    unfold Op.apply adw_settings_end_override
    cases ho : self.override
    · simp [ho]
    · simp only [Bool.not_true, Bool.false_eq_true, if_false]
      rw [update_yaru_accent_fields]
      simp
  | override_system_supports_color_schemes b =>
    unfold Op.apply adw_settings_override_system_supports_color_schemes
      adw_settings_override_color_scheme
    cases ho : self.override
    · simp [ho]
    · cases hs : self.system_supports_color_schemes_override <;> cases b <;>
        by_cases hc : ADW_SYSTEM_COLOR_SCHEME_DEFAULT = self.color_scheme_override <;>
        simp [ho, hs, hc]
      all_goals exact hB ho hs
  | override_color_scheme c =>
    unfold Op.apply adw_settings_override_color_scheme
    cases ho : self.override
    · simp [ho]
    · cases hs : self.system_supports_color_schemes_override <;>
        by_cases hc : c = self.color_scheme_override <;>
        simp [ho, hs, hc]
      all_goals exact hB ho hs
  | override_high_contrast b =>
    unfold Op.apply adw_settings_override_high_contrast
    cases ho : self.override
    · simp [ho]
    · by_cases hc : b = self.high_contrast_override <;> simp [ho, hc]
      all_goals exact hB ho

theorem color_scheme_needs_support_step (self : AdwSettings) (op : Op)
    (h : color_scheme_needs_support self) (hp : op.possible self = true) :
    color_scheme_needs_support (op.apply self).1 := by
  obtain ⟨h1, h2⟩ := h
  obtain ⟨f1, f2, f3, f4, f5⟩ := op_frame op self
  refine ⟨fun hs => ?_, op_override_part op self (fun hs => (h1 hs).1) h2⟩
  rw [f4] at hs
  have hc : color_scheme_changed_connected (op.apply self).1 =
      color_scheme_changed_connected self := by
    unfold color_scheme_changed_connected
    rw [f1, f2, f3]
  rw [hc, f5]
  refine ⟨?_, (h1 hs).2⟩
  cases op with
  | backend_color_scheme c =>
    have hp2 : color_scheme_changed_connected self = true := hp
    rw [(h1 hs).2] at hp2
    exact absurd hp2 (by decide)
  | backend_high_contrast b => exact (h1 hs).1
  | start_override => exact (h1 hs).1
  | end_override env => exact (h1 hs).1
  | override_system_supports_color_schemes b => exact (h1 hs).1
  | override_color_scheme c => exact (h1 hs).1
  | override_high_contrast b => exact (h1 hs).1

theorem color_scheme_needs_support_reachable (env : Env) (self : AdwSettings)
    (h : Reachable env self) : color_scheme_needs_support self := by
  induction h with
  | constructed => exact color_scheme_needs_support_new env
  | step s op _ hp ih => exact color_scheme_needs_support_step s op ih hp

/-- Without an override `update_yaru_accent_from_theme` emits `notify::yaru-accent`
exactly when the accent it leaves differs from the one it found. -/
theorem update_yaru_accent_from_theme_notify_iff (self : AdwSettings) (theme_name : String)
    (ho : self.override = false) :
    (update_yaru_accent_from_theme self theme_name).2 =
      if adw_settings_get_yaru_accent (update_yaru_accent_from_theme self theme_name).1 ≠
          adw_settings_get_yaru_accent self
      then [PROP_YARU_ACCENT] else [] := by
  unfold update_yaru_accent_from_theme adw_settings_get_yaru_accent
  simp only [ho, Bool.false_eq_true, if_false, ne_eq, g_strcmp0_eq_zero]
  split_ifs <;> first | rfl | (exfalso; simp_all)

/-! ## The claims -/

/-- Claim C1.  The backends are tried in the order platform, GSettings, legacy and
for each setting the first to report it wins.  For backends that keep to their
enable flags: the color scheme (high contrast) of the constructed object is the
value of the earliest of its backends that reports having it.  And when every
backend gives out of a fixed report what it is enabled for and no debug value
was found, it is the value of the first of the three reports, in that order,
that has the setting. -/
theorem C1_first_backend_to_report_wins (env : Env) (h : env.backends_honour_enable_flags) :
    (∀ c, first_reported_color_scheme (adw_settings_new env) = some c →
      adw_settings_get_color_scheme (adw_settings_new env) = c) ∧
    (∀ v, first_reported_high_contrast (adw_settings_new env) = some v →
      adw_settings_get_high_contrast (adw_settings_new env) = v) ∧
    (∀ P G L : AdwSettingsImpl,
      env.adw_settings_impl_portal_new = backend_of_report P →
      env.adw_settings_impl_gsettings_new = backend_of_report G →
      env.adw_settings_impl_legacy_new = backend_of_report L →
      ((init_debug env adw_settings_init false false).2.1 = false →
        ∀ c, ([some P, some G, some L].filterMap reported_color_scheme).head? = some c →
          adw_settings_get_color_scheme (adw_settings_new env) = c) ∧
      ((init_debug env adw_settings_init false false).2.2 = false →
        ∀ v, ([some P, some G, some L].filterMap reported_high_contrast).head? = some v →
          adw_settings_get_high_contrast (adw_settings_new env) = v)) :=
  ⟨fun c hc => first_wins_color env h c hc,
    fun v hv => first_wins_high_contrast env h v hv,
    fun P G L hP hG hL =>
      ⟨fun hd c hc => priority_color env P G L hP hG hL hd c hc,
        fun hd v hv => priority_high_contrast env P G L hP hG hL hd v hv⟩⟩

/-- Witness of C1 in `env_mixed`: the portal is the first to report a color
scheme, GSettings the first to report high contrast. -/
theorem C1_first_backend_to_report_wins_witness :
    env_mixed.backends_honour_enable_flags ∧
    first_reported_color_scheme (adw_settings_new env_mixed) =
      some ADW_SYSTEM_COLOR_SCHEME_PREFER_DARK ∧
    first_reported_high_contrast (adw_settings_new env_mixed) = some true ∧
    adw_settings_get_color_scheme (adw_settings_new env_mixed) =
      ADW_SYSTEM_COLOR_SCHEME_PREFER_DARK ∧
    adw_settings_get_high_contrast (adw_settings_new env_mixed) = true :=
  have h : env_mixed.backends_honour_enable_flags :=
    ⟨backend_of_report_honours _, backend_of_report_honours _, backend_of_report_honours _⟩
  ⟨h, by decide, by decide,
    (C1_first_backend_to_report_wins env_mixed h).1 _ (by decide),
    (C1_first_backend_to_report_wins env_mixed h).2.1 _ (by decide)⟩

/-- Claim C2.  Color scheme and high contrast are arbitrated independently: when
the platform backend of the constructed object reports only a color scheme `c`
and its GSettings backend reports a high-contrast value `v`, the getters return
`c` and `v`; and the same with the roles of the two settings swapped.  The
backends are taken to keep to their enable flags. -/
theorem C2_settings_from_different_backends (env : Env)
    (h : env.backends_honour_enable_flags) (c : AdwSystemColorScheme) (v : Bool)
    (p g : AdwSettingsImpl)
    (hp : (adw_settings_new env).platform_impl = some p)
    (hg : (adw_settings_new env).gsettings_impl = some g) :
    (p.has_color_scheme = true → p.color_scheme = c → p.has_high_contrast = false →
      g.has_high_contrast = true → g.high_contrast = v →
        adw_settings_get_color_scheme (adw_settings_new env) = c ∧
        adw_settings_get_high_contrast (adw_settings_new env) = v) ∧
    (p.has_high_contrast = true → p.high_contrast = v → p.has_color_scheme = false →
      g.has_color_scheme = true → g.color_scheme = c →
        adw_settings_get_color_scheme (adw_settings_new env) = c ∧
        adw_settings_get_high_contrast (adw_settings_new env) = v) := by
  constructor
  · intro h1 h2 h3 h4 h5
    constructor
    · apply first_wins_color env h
      simp [first_reported_color_scheme, hp, reported_color_scheme, h1, h2]
    · apply first_wins_high_contrast env h
      simp [first_reported_high_contrast, hp, hg, reported_high_contrast, h3, h4, h5]
  · intro h1 h2 h3 h4 h5
    constructor
    · apply first_wins_color env h
      simp [first_reported_color_scheme, hp, hg, reported_color_scheme, h3, h4, h5]
    · apply first_wins_high_contrast env h
      simp [first_reported_high_contrast, hp, reported_high_contrast, h1, h2]

/-- Witness of C2 in `env_mixed`: dark from the portal, high contrast from
GSettings. -/
theorem C2_settings_from_different_backends_witness :
    env_mixed.backends_honour_enable_flags ∧
    (adw_settings_new env_mixed).platform_impl =
      some ⟨true, ADW_SYSTEM_COLOR_SCHEME_PREFER_DARK, false, false⟩ ∧
    (adw_settings_new env_mixed).gsettings_impl =
      some ⟨false, ADW_SYSTEM_COLOR_SCHEME_PREFER_LIGHT, true, true⟩ ∧
    adw_settings_get_color_scheme (adw_settings_new env_mixed) =
      ADW_SYSTEM_COLOR_SCHEME_PREFER_DARK ∧
    adw_settings_get_high_contrast (adw_settings_new env_mixed) = true :=
  have h : env_mixed.backends_honour_enable_flags :=
    ⟨backend_of_report_honours _, backend_of_report_honours _, backend_of_report_honours _⟩
  ⟨h, by decide, by decide,
    (C2_settings_from_different_backends env_mixed h ADW_SYSTEM_COLOR_SCHEME_PREFER_DARK true
      ⟨true, ADW_SYSTEM_COLOR_SCHEME_PREFER_DARK, false, false⟩
      ⟨false, ADW_SYSTEM_COLOR_SCHEME_PREFER_LIGHT, true, true⟩
      (by decide) (by decide)).1 rfl rfl rfl rfl rfl⟩

/-- Claim C3.  After construction no override is active, and
`adw_settings_get_system_supports_color_schemes` returns `TRUE` if and only if a
probed source reported a color scheme: `ADW_DEBUG_COLOR_SCHEME` holds one of the
three valid values, or the platform, GSettings or legacy backend of the object
reports having a color scheme. -/
theorem C3_supports_iff_some_source_reported (env : Env) :
    (adw_settings_new env).override = false ∧
    (adw_settings_get_system_supports_color_schemes (adw_settings_new env) = true ↔
      ((env.ADW_DEBUG_COLOR_SCHEME = some "default" ∨
          env.ADW_DEBUG_COLOR_SCHEME = some "prefer-dark" ∨
          env.ADW_DEBUG_COLOR_SCHEME = some "prefer-light") ∨
        (∃ i, (adw_settings_new env).platform_impl = some i ∧ i.has_color_scheme = true) ∨
        (∃ i, (adw_settings_new env).gsettings_impl = some i ∧ i.has_color_scheme = true) ∨
        (∃ i, (adw_settings_new env).legacy_impl = some i ∧ i.has_color_scheme = true))) :=
  ⟨new_override env, supports_iff env⟩

/-- Claim C4.  Absence-of-backend fallback.  Without `ADW_DEBUG_COLOR_SCHEME` and
with no backend of the object reporting a color scheme, the color scheme is
`ADW_SYSTEM_COLOR_SCHEME_DEFAULT` and color schemes are not supported; without
`ADW_DEBUG_HIGH_CONTRAST` and with no backend reporting high contrast, high
contrast is `FALSE`; with no theme-name source the Yaru accent is `NULL`. -/
theorem C4_absence_of_backend_fallback (env : Env) :
    (env.ADW_DEBUG_COLOR_SCHEME = none →
      (∀ i, (adw_settings_new env).platform_impl = some i → i.has_color_scheme = false) →
      (∀ i, (adw_settings_new env).gsettings_impl = some i → i.has_color_scheme = false) →
      (∀ i, (adw_settings_new env).legacy_impl = some i → i.has_color_scheme = false) →
        adw_settings_get_color_scheme (adw_settings_new env) =
          ADW_SYSTEM_COLOR_SCHEME_DEFAULT ∧
        adw_settings_get_system_supports_color_schemes (adw_settings_new env) = false) ∧
    (env.ADW_DEBUG_HIGH_CONTRAST = none →
      (∀ i, (adw_settings_new env).platform_impl = some i → i.has_high_contrast = false) →
      (∀ i, (adw_settings_new env).gsettings_impl = some i → i.has_high_contrast = false) →
      (∀ i, (adw_settings_new env).legacy_impl = some i → i.has_high_contrast = false) →
        adw_settings_get_high_contrast (adw_settings_new env) = false) ∧
    (no_theme_source env (adw_settings_new env) →
      adw_settings_get_yaru_accent (adw_settings_new env) = none) :=
  ⟨no_report_color env, no_report_high_contrast env, new_accent_no_source env⟩

/-- Witness of C4 in `env_bare`, where nothing is available. -/
theorem C4_absence_of_backend_fallback_witness :
    env_bare.ADW_DEBUG_COLOR_SCHEME = none ∧
    env_bare.ADW_DEBUG_HIGH_CONTRAST = none ∧
    no_theme_source env_bare (adw_settings_new env_bare) ∧
    adw_settings_get_color_scheme (adw_settings_new env_bare) =
      ADW_SYSTEM_COLOR_SCHEME_DEFAULT ∧
    adw_settings_get_system_supports_color_schemes (adw_settings_new env_bare) = false ∧
    adw_settings_get_high_contrast (adw_settings_new env_bare) = false ∧
    adw_settings_get_yaru_accent (adw_settings_new env_bare) = none :=
  have hs : no_theme_source env_bare (adw_settings_new env_bare) :=
    ⟨Or.inl rfl, Or.inl rfl, Or.inr rfl⟩
  have hc := (C4_absence_of_backend_fallback env_bare).1 rfl
    (by decide) (by decide) (by decide)
  ⟨rfl, rfl, hs, hc.1, hc.2,
    (C4_absence_of_backend_fallback env_bare).2.1 rfl (by decide) (by decide) (by decide),
    (C4_absence_of_backend_fallback env_bare).2.2 hs⟩


/-- Claim C5.  Yaru base themes: with no override active,
`update_yaru_accent_from_theme` with theme name `Yaru` or `Yaru-dark` leaves the
accent equal to the string `default`, whatever the accent was before. -/
theorem C5_yaru_base_themes_give_default (self : AdwSettings) (ho : self.override = false) :
    adw_settings_get_yaru_accent (update_yaru_accent_from_theme self "Yaru").1 = some "default" ∧
    adw_settings_get_yaru_accent (update_yaru_accent_from_theme self "Yaru-dark").1 =
      some "default" :=
  yaru_base_accent self ho

/-- Witness of C5 on an object whose accent was `blue`. -/
theorem C5_yaru_base_themes_give_default_witness :
    ({ adw_settings_init with yaru_accent := some "blue" } : AdwSettings).override = false ∧
    adw_settings_get_yaru_accent
      (update_yaru_accent_from_theme { adw_settings_init with yaru_accent := some "blue" }
        "Yaru").1 = some "default" :=
  ⟨rfl, (C5_yaru_base_themes_give_default _ rfl).1⟩

/-- Claim C6.  Yaru variant parsing: with no override active, for every theme name
`"Yaru-" ++ rest` other than `Yaru-dark`, `update_yaru_accent_from_theme` sets
the accent to the variant, the characters of `rest` up to, not including, its
first `-` or its end; `Yaru-blue` and `Yaru-blue-dark` both give `blue`. -/
theorem C6_yaru_variant_parsing (self : AdwSettings) (ho : self.override = false) :
    (∀ rest : String, "Yaru-" ++ rest ≠ "Yaru-dark" →
      adw_settings_get_yaru_accent (update_yaru_accent_from_theme self ("Yaru-" ++ rest)).1 =
        some (yaru_variant rest)) ∧
    adw_settings_get_yaru_accent (update_yaru_accent_from_theme self "Yaru-blue").1 =
      some "blue" ∧
    adw_settings_get_yaru_accent (update_yaru_accent_from_theme self "Yaru-blue-dark").1 =
      some "blue" :=
  ⟨fun rest hne => yaru_dash_accent self rest ho hne,
    yaru_dash_accent self "blue" ho (by decide),
    yaru_dash_accent self "blue-dark" ho (by decide)⟩

/-- Witness of C6 on the fresh object with the theme `Yaru-sage-dark`. -/
theorem C6_yaru_variant_parsing_witness :
    adw_settings_init.override = false ∧
    "Yaru-" ++ "sage-dark" ≠ "Yaru-dark" ∧
    adw_settings_get_yaru_accent
      (update_yaru_accent_from_theme adw_settings_init ("Yaru-" ++ "sage-dark")).1 =
        some (yaru_variant "sage-dark") ∧
    yaru_variant "sage-dark" = "sage" :=
  ⟨rfl, by decide, (C6_yaru_variant_parsing adw_settings_init rfl).1 "sage-dark" (by decide),
    by decide⟩

/-- Claim C7.  Non-Yaru themes carry no accent: with no override active, for every
theme name that does not start with `Yaru`, or that starts with `Yaru` followed
by a character other than `-`, `update_yaru_accent_from_theme` leaves the accent
`NULL`, whatever it was before; so for `YaruFoo` and `Adwaita`. -/
theorem C7_non_yaru_themes_have_no_accent (self : AdwSettings) (ho : self.override = false) :
    (∀ theme_name : String, (¬ ∃ rest : String, theme_name = "Yaru" ++ rest) →
      adw_settings_get_yaru_accent (update_yaru_accent_from_theme self theme_name).1 = none) ∧
    (∀ (c : Char) (rest : String), c ≠ '-' →
      adw_settings_get_yaru_accent
        (update_yaru_accent_from_theme self ("Yaru" ++ String.singleton c ++ rest)).1 = none) ∧
    adw_settings_get_yaru_accent (update_yaru_accent_from_theme self "YaruFoo").1 = none ∧
    adw_settings_get_yaru_accent (update_yaru_accent_from_theme self "Adwaita").1 = none := by
  refine ⟨fun theme_name hn => ?_, fun c rest hc => yaru_other_accent self c rest ho hc,
    yaru_other_accent self 'F' "oo" ho (by decide), ?_⟩
  · apply not_yaru_accent self theme_name ho
    cases hp : g_str_has_prefix theme_name "Yaru"
    · rfl
    · exact absurd ((g_str_has_prefix_iff _ _).1 hp) hn
  · exact not_yaru_accent self "Adwaita" ho (by decide)

/-- Witness of C7 on an object whose accent was `blue`, with the theme `Yaru5`. -/
theorem C7_non_yaru_themes_have_no_accent_witness :
    ({ adw_settings_init with yaru_accent := some "blue" } : AdwSettings).override = false ∧
    '5' ≠ '-' ∧
    adw_settings_get_yaru_accent
      (update_yaru_accent_from_theme { adw_settings_init with yaru_accent := some "blue" }
        ("Yaru" ++ String.singleton '5' ++ "")).1 = none :=
  ⟨rfl, by decide, (C7_non_yaru_themes_have_no_accent _ rfl).2.1 '5' "" (by decide)⟩

/-- Claim C8.  Precondition violation is a no-op: when no override is active each
of the three `adw_settings_override_*` setters, for every argument, returns the
object unchanged and emits no notification.  No override is active on a newly
constructed object and after `adw_settings_end_override`. -/
theorem C8_override_setters_without_override (self : AdwSettings) (ho : self.override = false) :
    (∀ b, adw_settings_override_system_supports_color_schemes self b = (self, [])) ∧
    (∀ c, adw_settings_override_color_scheme self c = (self, [])) ∧
    (∀ b, adw_settings_override_high_contrast self b = (self, [])) ∧
    (∀ env, (adw_settings_new env).override = false) ∧
    (∀ env s, (adw_settings_end_override env s).1.override = false) :=
  ⟨(override_setters_inactive self ho).1, (override_setters_inactive self ho).2.1,
    (override_setters_inactive self ho).2.2, new_override, end_override_inactive⟩

/-- Witness of C8 on the object constructed in `env_mixed`. -/
theorem C8_override_setters_without_override_witness :
    (adw_settings_new env_mixed).override = false ∧
    adw_settings_override_color_scheme (adw_settings_new env_mixed)
      ADW_SYSTEM_COLOR_SCHEME_PREFER_LIGHT = (adw_settings_new env_mixed, []) :=
  ⟨by decide,
    (C8_override_setters_without_override (adw_settings_new env_mixed) (by decide)).2.1 _⟩

/-- Claim C9.  Debug color-scheme decoding: `init_debug` maps the values `default`,
`prefer-dark` and `prefer-light` of `ADW_DEBUG_COLOR_SCHEME` to the three color
schemes and marks the color scheme as found; for any other value, and when the
variable is unset, it leaves the color scheme and the found flag as they were.
When the value is valid and the backends keep to their enable flags, the color
scheme after construction is the decoded value. -/
theorem C9_debug_color_scheme_decoding (env : Env) :
    (∀ (self : AdwSettings) (found_color_scheme found_high_contrast : Bool),
      (env.ADW_DEBUG_COLOR_SCHEME = some "default" →
        (init_debug env self found_color_scheme found_high_contrast).1.color_scheme =
          ADW_SYSTEM_COLOR_SCHEME_DEFAULT ∧
        (init_debug env self found_color_scheme found_high_contrast).2.1 = true) ∧
      (env.ADW_DEBUG_COLOR_SCHEME = some "prefer-dark" →
        (init_debug env self found_color_scheme found_high_contrast).1.color_scheme =
          ADW_SYSTEM_COLOR_SCHEME_PREFER_DARK ∧
        (init_debug env self found_color_scheme found_high_contrast).2.1 = true) ∧
      (env.ADW_DEBUG_COLOR_SCHEME = some "prefer-light" →
        (init_debug env self found_color_scheme found_high_contrast).1.color_scheme =
          ADW_SYSTEM_COLOR_SCHEME_PREFER_LIGHT ∧
        (init_debug env self found_color_scheme found_high_contrast).2.1 = true) ∧
      (env.ADW_DEBUG_COLOR_SCHEME ≠ some "default" →
        env.ADW_DEBUG_COLOR_SCHEME ≠ some "prefer-dark" →
        env.ADW_DEBUG_COLOR_SCHEME ≠ some "prefer-light" →
        (init_debug env self found_color_scheme found_high_contrast).1.color_scheme =
          self.color_scheme ∧
        (init_debug env self found_color_scheme found_high_contrast).2.1 =
          found_color_scheme)) ∧
    (env.backends_honour_enable_flags →
      (env.ADW_DEBUG_COLOR_SCHEME = some "default" →
        adw_settings_get_color_scheme (adw_settings_new env) =
          ADW_SYSTEM_COLOR_SCHEME_DEFAULT) ∧
      (env.ADW_DEBUG_COLOR_SCHEME = some "prefer-dark" →
        adw_settings_get_color_scheme (adw_settings_new env) =
          ADW_SYSTEM_COLOR_SCHEME_PREFER_DARK) ∧
      (env.ADW_DEBUG_COLOR_SCHEME = some "prefer-light" →
        adw_settings_get_color_scheme (adw_settings_new env) =
          ADW_SYSTEM_COLOR_SCHEME_PREFER_LIGHT)) := by
  constructor
  · intro self a b
    simp only [init_debug_eq]
    refine ⟨fun h => ?_, fun h => ?_, fun h => ?_, fun h1 h2 h3 => ?_⟩
    · simp [h, debug_color_scheme]
    · simp [h, debug_color_scheme]
    · simp [h, debug_color_scheme]
    · simp [h1, h2, h3, debug_color_scheme]
  · intro h
    refine ⟨fun hd => ?_, fun hd => ?_, fun hd => ?_⟩
    · exact debug_color_kept env h _ (by simp [hd, debug_color_scheme])
    · exact debug_color_kept env h _ (by simp [hd, debug_color_scheme])
    · exact debug_color_kept env h _ (by simp [hd, debug_color_scheme])

/-- Witness of C9 in `env_debug_light`: the portal knows a dark color scheme, the
debug value `prefer-light` is what the object holds. -/
theorem C9_debug_color_scheme_decoding_witness :
    env_debug_light.backends_honour_enable_flags ∧
    env_debug_light.ADW_DEBUG_COLOR_SCHEME = some "prefer-light" ∧
    (init_debug env_debug_light adw_settings_init false false).1.color_scheme =
      ADW_SYSTEM_COLOR_SCHEME_PREFER_LIGHT ∧
    adw_settings_get_color_scheme (adw_settings_new env_debug_light) =
      ADW_SYSTEM_COLOR_SCHEME_PREFER_LIGHT :=
  have h : env_debug_light.backends_honour_enable_flags :=
    ⟨backend_of_report_honours _, backend_of_report_honours _, backend_of_report_honours _⟩
  ⟨h, rfl,
    ((C9_debug_color_scheme_decoding env_debug_light).1 adw_settings_init false false).2.2.1
      rfl |>.1,
    ((C9_debug_color_scheme_decoding env_debug_light).2 h).2.2 rfl⟩

/-- Claim C10.  A newly added dialog response carries its label, is enabled and has
the default appearance: for an identifier not yet present, after
`adw_message_dialog_add_response`, or after `adw_message_dialog_add_responses`
with the pair among its arguments (the identifier not repeated before it), the
label getter returns the label, the response is enabled and its appearance is
`ADW_RESPONSE_DEFAULT`; the responses the dialog had keep their label, enabled
state and appearance. -/
theorem C10_added_response_has_label_and_defaults (self : AdwMessageDialog)
    (id label : String) (hf : adw_message_dialog_has_response self id = false) :
    (adw_message_dialog_get_response_label
        (adw_message_dialog_add_response self id label) id = some label ∧
      adw_message_dialog_get_response_enabled
        (adw_message_dialog_add_response self id label) id = true ∧
      adw_message_dialog_get_response_appearance
        (adw_message_dialog_add_response self id label) id = ADW_RESPONSE_DEFAULT) ∧
    (∀ pre post : List (String × String), id ∉ pre.map Prod.fst →
      adw_message_dialog_get_response_label
        (adw_message_dialog_add_responses self (pre ++ (id, label) :: post)) id = some label ∧
      adw_message_dialog_get_response_enabled
        (adw_message_dialog_add_responses self (pre ++ (id, label) :: post)) id = true ∧
      adw_message_dialog_get_response_appearance
        (adw_message_dialog_add_responses self (pre ++ (id, label) :: post)) id =
          ADW_RESPONSE_DEFAULT) ∧
    (∀ response, adw_message_dialog_has_response self response = true →
      adw_message_dialog_get_response_label
          (adw_message_dialog_add_response self id label) response =
        adw_message_dialog_get_response_label self response ∧
      adw_message_dialog_get_response_enabled
          (adw_message_dialog_add_response self id label) response =
        adw_message_dialog_get_response_enabled self response ∧
      adw_message_dialog_get_response_appearance
          (adw_message_dialog_add_response self id label) response =
        adw_message_dialog_get_response_appearance self response) ∧
    (∀ (pairs : List (String × String)) (response : String),
      adw_message_dialog_has_response self response = true →
      adw_message_dialog_get_response_label
          (adw_message_dialog_add_responses self pairs) response =
        adw_message_dialog_get_response_label self response ∧
      adw_message_dialog_get_response_enabled
          (adw_message_dialog_add_responses self pairs) response =
        adw_message_dialog_get_response_enabled self response ∧
      adw_message_dialog_get_response_appearance
          (adw_message_dialog_add_responses self pairs) response =
        adw_message_dialog_get_response_appearance self response) := by
  refine ⟨add_response_fresh self id label hf, fun pre post hp => ?_, fun response hr => ?_,
    fun pairs response hr => ?_⟩
  · unfold adw_message_dialog_get_response_label adw_message_dialog_get_response_enabled
      adw_message_dialog_get_response_appearance
    rw [find_response_add_responses_fresh pre post self id label hf hp]
    exact ⟨rfl, rfl, rfl⟩
  · have hne : response ≠ id := by
      intro e
      rw [e, hf] at hr
      exact absurd hr (by decide)
    exact (add_response_keeps self id label response hne).2
  · unfold adw_message_dialog_has_response at hr
    obtain ⟨x, hx⟩ := Option.isSome_iff_exists.1 hr
    unfold adw_message_dialog_get_response_label adw_message_dialog_get_response_enabled
      adw_message_dialog_get_response_appearance
    rw [find_response_add_responses_present pairs self response x hx, hx]
    exact ⟨rfl, rfl, rfl⟩

/-- Witness of C10: `response2` added to the dialog that holds `response1`. -/
theorem C10_added_response_has_label_and_defaults_witness :
    adw_message_dialog_has_response dialog_one "response2" = false ∧
    adw_message_dialog_get_response_label
      (adw_message_dialog_add_response dialog_one "response2" "Response 2") "response2" =
        some "Response 2" ∧
    adw_message_dialog_get_response_label
      (adw_message_dialog_add_response dialog_one "response2" "Response 2") "response1" =
        some "Response 1" :=
  have h := C10_added_response_has_label_and_defaults dialog_one "response2" "Response 2"
    (by decide)
  ⟨by decide, h.1.1, (h.2.2.1 "response1" (by decide)).1.trans (by decide)⟩

/-- Claim C11.  Removing a response removes exactly that response: for a dialog
holding the distinct responses `a` and `b`, after
`adw_message_dialog_remove_response (dialog, a)` the dialog no longer has `a`,
still has `b`, and the label, enabled state and appearance of `b` are what they
were. -/
theorem C11_remove_response_removes_exactly_that (self : AdwMessageDialog) (a b : String)
    (hab : a ≠ b) (_ha : adw_message_dialog_has_response self a = true)
    (hb : adw_message_dialog_has_response self b = true) :
    adw_message_dialog_has_response (adw_message_dialog_remove_response self a) a = false ∧
    adw_message_dialog_has_response (adw_message_dialog_remove_response self a) b = true ∧
    adw_message_dialog_get_response_label (adw_message_dialog_remove_response self a) b =
      adw_message_dialog_get_response_label self b ∧
    adw_message_dialog_get_response_enabled (adw_message_dialog_remove_response self a) b =
      adw_message_dialog_get_response_enabled self b ∧
    adw_message_dialog_get_response_appearance (adw_message_dialog_remove_response self a) b =
      adw_message_dialog_get_response_appearance self b := by
  have hba : b ≠ a := fun e => hab e.symm
  unfold adw_message_dialog_has_response adw_message_dialog_get_response_label
    adw_message_dialog_get_response_enabled adw_message_dialog_get_response_appearance at *
  rw [find_response_remove_self, find_response_remove_other self a b hba]
  exact ⟨rfl, hb, rfl, rfl, rfl⟩

/-- Witness of C11: `response1` removed from the dialog that holds `response1`
and `response2`. -/
theorem C11_remove_response_removes_exactly_that_witness :
    "response1" ≠ "response2" ∧
    adw_message_dialog_has_response dialog_two "response1" = true ∧
    adw_message_dialog_has_response dialog_two "response2" = true ∧
    adw_message_dialog_has_response
      (adw_message_dialog_remove_response dialog_two "response1") "response1" = false ∧
    adw_message_dialog_get_response_label
      (adw_message_dialog_remove_response dialog_two "response1") "response2" =
        some "Response 2" :=
  have h := C11_remove_response_removes_exactly_that dialog_two "response1" "response2"
    (by decide) (by decide) (by decide)
  ⟨by decide, by decide, by decide, h.1, h.2.2.1.trans (by decide)⟩

/-- Claim C12.  Setting the heading emits exactly one notify signal and round-trips:
a new dialog has the heading `""`, and for a string different from the current
heading `adw_message_dialog_set_heading` makes `adw_message_dialog_get_heading`
return it and emits `notify::heading` exactly once. -/
theorem C12_set_heading_round_trips_and_notifies_once (self : AdwMessageDialog) (s : String)
    (hs : s ≠ adw_message_dialog_get_heading self) :
    adw_message_dialog_get_heading (adw_message_dialog_new none) = "" ∧
    adw_message_dialog_get_heading (adw_message_dialog_set_heading self s).1 = s ∧
    (adw_message_dialog_set_heading self s).2 = [PROP_HEADING] := by
  unfold adw_message_dialog_get_heading at hs
  unfold adw_message_dialog_set_heading adw_message_dialog_get_heading
  simp [hs, adw_message_dialog_new]

/-- Witness of C12: the heading `Heading` set on a new dialog. -/
theorem C12_set_heading_round_trips_and_notifies_once_witness :
    "Heading" ≠ adw_message_dialog_get_heading (adw_message_dialog_new none) ∧
    adw_message_dialog_get_heading
      (adw_message_dialog_set_heading (adw_message_dialog_new none) "Heading").1 = "Heading" ∧
    (adw_message_dialog_set_heading (adw_message_dialog_new none) "Heading").2 =
      [PROP_HEADING] :=
  have h := C12_set_heading_round_trips_and_notifies_once (adw_message_dialog_new none)
    "Heading" (by decide)
  ⟨by decide, h.2.1, h.2.2⟩

/-- Claim C13.  Override isolation: while an override is active the backend
callbacks `set_color_scheme` and `set_high_contrast`, for every value, do not
change what the three getters return; after any sequence of backend changes the
override is still active and the getters return the overridden values, which
only `adw_settings_start_override` and the override setters write. -/
theorem C13_override_isolation (self : AdwSettings) (ho : self.override = true) :
    (∀ c, observable (set_color_scheme self c).1 = observable self) ∧
    (∀ b, observable (set_high_contrast self b).1 = observable self) ∧
    (∀ ops : List Op, (∀ op ∈ ops, op.is_backend_change = true) →
      (run_ops ops self).1.override = true ∧
      observable (run_ops ops self).1 = observable self ∧
      observable (run_ops ops self).1 =
        (self.system_supports_color_schemes_override, self.color_scheme_override,
          self.high_contrast_override)) := by
  have key : ∀ ops : List Op, (∀ op ∈ ops, op.is_backend_change = true) →
      (run_ops ops self).1.override = true ∧
      observable (run_ops ops self).1 = observable self ∧
      observable (run_ops ops self).1 =
        (self.system_supports_color_schemes_override, self.color_scheme_override,
          self.high_contrast_override) := by
    intro ops hops
    obtain ⟨h1, h2, h3, h4, _⟩ := backend_changes_during_override self ops ho hops
    obtain ⟨g1, g2, g3⟩ := getters_during_override (run_ops ops self).1 h1
    obtain ⟨k1, k2, k3⟩ := getters_during_override self ho
    unfold observable
    rw [g1, g2, g3, k1, k2, k3, h2, h3, h4]
    exact ⟨h1, rfl, rfl⟩
  refine ⟨fun c => ?_, fun b => ?_, key⟩
  · exact (key [Op.backend_color_scheme c] (by simp [Op.is_backend_change])).2.1
  · exact (key [Op.backend_high_contrast b] (by simp [Op.is_backend_change])).2.1

/-- Witness of C13: a dark color scheme delivered to an object under override. -/
theorem C13_override_isolation_witness :
    settings_overridden.override = true ∧
    observable (set_color_scheme settings_overridden ADW_SYSTEM_COLOR_SCHEME_PREFER_DARK).1 =
      observable settings_overridden ∧
    (set_color_scheme settings_overridden ADW_SYSTEM_COLOR_SCHEME_PREFER_DARK).1.color_scheme =
      ADW_SYSTEM_COLOR_SCHEME_PREFER_DARK :=
  ⟨rfl, (C13_override_isolation settings_overridden rfl).1 _, by decide⟩

/-- Counterexample to C14 as stated ("for every state"): on an object that is
already under an override, with high contrast overridden to `TRUE` over a system
value `FALSE`, `adw_settings_start_override` does nothing, and after
`adw_settings_end_override` high contrast is not what it was before the start. -/
theorem C14_round_trip_fails_under_override :
    adw_settings_get_high_contrast
        (adw_settings_end_override env_bare
          (run_ops [] (adw_settings_start_override settings_overridden).1).1).1 ≠
      adw_settings_get_high_contrast settings_overridden := by
  decide

/-- Claim C14, amended.  Override round trip: for every state and every sequence
of override setters and backend changes between `adw_settings_start_override`
and `adw_settings_end_override`, after the end the three getters return the
current system values: the support flag of the system and the color scheme and
high contrast last delivered by the backends.  If no override was active at the
start and no backend change occurred in between, they return the values they
returned before the start.  The start itself changes none of the three. -/
theorem C14_override_round_trip (env : Env) (self : AdwSettings) (ops : List Op)
    (hops : ∀ op ∈ ops, op.is_override_setter = true ∨ op.is_backend_change = true) :
    observable
        (adw_settings_end_override env
          (run_ops ops (adw_settings_start_override self).1).1).1 =
      (self.system_supports_color_schemes, delivered_color_scheme self.color_scheme ops,
        delivered_high_contrast self.high_contrast ops) ∧
    (self.override = false → (∀ op ∈ ops, op.is_override_setter = true) →
      observable
          (adw_settings_end_override env
            (run_ops ops (adw_settings_start_override self).1).1).1 =
        observable self) ∧
    observable (adw_settings_start_override self).1 = observable self := by
  obtain ⟨s1, s2, s3, s4⟩ := start_override_fields self
  obtain ⟨r1, r2, r3, r4⟩ :=
    during_override_run (adw_settings_start_override self).1 ops s1 hops
  obtain ⟨e1, e2, e3⟩ :=
    end_override_getters env (run_ops ops (adw_settings_start_override self).1).1
  have main : observable
        (adw_settings_end_override env
          (run_ops ops (adw_settings_start_override self).1).1).1 =
      (self.system_supports_color_schemes, delivered_color_scheme self.color_scheme ops,
        delivered_high_contrast self.high_contrast ops) := by
    unfold observable
    rw [e1, e2, e3, r2, r3, r4, s2, s3, s4]
  refine ⟨main, fun ho hset => ?_, ?_⟩
  · rw [main]
    obtain ⟨d1, d2⟩ := delivered_of_setters ops hset self.color_scheme self.high_contrast
    rw [d1, d2]
    unfold observable adw_settings_get_system_supports_color_schemes
      adw_settings_get_color_scheme adw_settings_get_high_contrast
    simp [ho]
  · obtain ⟨g1, g2, g3⟩ := start_override_getters self
    unfold observable
    rw [g1, g2, g3]

/-- Witness of C14 on the object constructed in `env_mixed`, where no override is
active.  First high contrast is overridden to `FALSE`, a backend delivers a
light color scheme, and the override ends: the getters return the system values
with the delivered color scheme.  Then only the override setter is called: the
getters return what they returned before the start. -/
theorem C14_override_round_trip_witness :
    (∀ op ∈ [Op.override_high_contrast false,
        Op.backend_color_scheme ADW_SYSTEM_COLOR_SCHEME_PREFER_LIGHT],
      op.is_override_setter = true ∨ op.is_backend_change = true) ∧
    observable
        (adw_settings_end_override env_mixed
          (run_ops [Op.override_high_contrast false,
              Op.backend_color_scheme ADW_SYSTEM_COLOR_SCHEME_PREFER_LIGHT]
            (adw_settings_start_override (adw_settings_new env_mixed)).1).1).1 =
      (true, ADW_SYSTEM_COLOR_SCHEME_PREFER_LIGHT, true) ∧
    (adw_settings_new env_mixed).override = false ∧
    (∀ op ∈ [Op.override_high_contrast false], op.is_override_setter = true) ∧
    observable
        (adw_settings_end_override env_mixed
          (run_ops [Op.override_high_contrast false]
            (adw_settings_start_override (adw_settings_new env_mixed)).1).1).1 =
      observable (adw_settings_new env_mixed) :=
  have hops : ∀ op ∈ [Op.override_high_contrast false,
      Op.backend_color_scheme ADW_SYSTEM_COLOR_SCHEME_PREFER_LIGHT],
      op.is_override_setter = true ∨ op.is_backend_change = true := by
    intro op hop
    simp only [List.mem_cons, List.mem_singleton, List.not_mem_nil, or_false] at hop
    rcases hop with rfl | rfl
    · exact Or.inl rfl
    · exact Or.inr rfl
  have hset : ∀ op ∈ [Op.override_high_contrast false], op.is_override_setter = true := by
    intro op hop
    simp only [List.mem_singleton] at hop
    rw [hop]
    rfl
  ⟨hops,
    (C14_override_round_trip env_mixed (adw_settings_new env_mixed) _ hops).1.trans (by decide),
    by decide, hset,
    (C14_override_round_trip env_mixed (adw_settings_new env_mixed)
      [Op.override_high_contrast false] (fun op hop => Or.inl (hset op hop))).2.1
      (by decide) hset⟩

/-- Claim C15.  Notifications track observable changes: every operation on a
constructed object (the two backend callbacks, start and end of an override,
the three override setters) emits, for each of system-supports-color-schemes,
color-scheme and high-contrast, the notify at most once, and emits it if and
only if the getter returns another value after the operation than before. -/
theorem C15_notifications_track_observable_changes (op : Op) (self : AdwSettings) :
    notifications_track_changes self (op.apply self).1 (op.apply self).2 := by
  cases op with
  | backend_color_scheme c => exact set_color_scheme_tracks self c
  | backend_high_contrast b => exact set_high_contrast_tracks self b
  | start_override => exact start_override_tracks self
  | end_override env => exact end_override_tracks env self
  | override_system_supports_color_schemes b => exact override_system_supports_tracks self b
  | override_color_scheme c => exact override_color_scheme_tracks self c
  | override_high_contrast b => exact override_high_contrast_tracks self b

/-- Claim C16.  Color scheme needs support: in every state reachable from a
constructed object by backend callbacks, start and end of an override and the
override setters, if the getter for color scheme support returns `FALSE` the
color scheme getter returns `ADW_SYSTEM_COLOR_SCHEME_DEFAULT`.  In particular,
under an override, `adw_settings_override_system_supports_color_schemes (self,
FALSE)` leaves the overridden color scheme at the default, and
`adw_settings_override_color_scheme` does nothing while the overridden support
flag is `FALSE`. -/
theorem C16_color_scheme_needs_support (env : Env) (self : AdwSettings)
    (h : Reachable env self) :
    (adw_settings_get_system_supports_color_schemes self = false →
      adw_settings_get_color_scheme self = ADW_SYSTEM_COLOR_SCHEME_DEFAULT) ∧
    (self.override = true →
      (adw_settings_override_system_supports_color_schemes self false).1.color_scheme_override =
        ADW_SYSTEM_COLOR_SCHEME_DEFAULT ∧
      adw_settings_get_system_supports_color_schemes
        (adw_settings_override_system_supports_color_schemes self false).1 = false ∧
      adw_settings_get_color_scheme
        (adw_settings_override_system_supports_color_schemes self false).1 =
          ADW_SYSTEM_COLOR_SCHEME_DEFAULT) ∧
    (∀ c, self.override = true → self.system_supports_color_schemes_override = false →
      adw_settings_override_color_scheme self c = (self, [])) := by
  have inv := color_scheme_needs_support_reachable env self h
  refine ⟨fun hs => ?_, fun ho => ?_, fun c ho hs => ?_⟩
  · unfold adw_settings_get_system_supports_color_schemes at hs
    unfold adw_settings_get_color_scheme
    cases ho : self.override
    · rw [ho] at hs
      simp only [Bool.false_eq_true, if_false] at hs ⊢
      exact (inv.1 hs).1
    · rw [ho] at hs
      simp only [if_true] at hs ⊢
      exact inv.2 ho hs
  · have h2 := inv.2 ho
    unfold adw_settings_override_system_supports_color_schemes adw_settings_override_color_scheme
      adw_settings_get_system_supports_color_schemes adw_settings_get_color_scheme
    cases hs : self.system_supports_color_schemes_override
    · simp [ho, hs, h2 hs]
    · by_cases hc : ADW_SYSTEM_COLOR_SCHEME_DEFAULT = self.color_scheme_override
      · have hc2 := hc.symm
        simp [ho, hs, hc2]
      · simp [ho, hs, hc]
  · unfold adw_settings_override_color_scheme
    simp [ho, hs]

/-- Witness of C16: on the object constructed in `env_mixed` (dark color scheme)
an override is started and color scheme support is overridden to `FALSE`. -/
theorem C16_color_scheme_needs_support_witness :
    Reachable env_mixed
      ((Op.override_system_supports_color_schemes false).apply
        (Op.start_override.apply (adw_settings_new env_mixed)).1).1 ∧
    adw_settings_get_color_scheme (Op.start_override.apply (adw_settings_new env_mixed)).1 =
      ADW_SYSTEM_COLOR_SCHEME_PREFER_DARK ∧
    adw_settings_get_system_supports_color_schemes
      ((Op.override_system_supports_color_schemes false).apply
        (Op.start_override.apply (adw_settings_new env_mixed)).1).1 = false ∧
    adw_settings_get_color_scheme
      ((Op.override_system_supports_color_schemes false).apply
        (Op.start_override.apply (adw_settings_new env_mixed)).1).1 =
      ADW_SYSTEM_COLOR_SCHEME_DEFAULT :=
  have hr : Reachable env_mixed
      ((Op.override_system_supports_color_schemes false).apply
        (Op.start_override.apply (adw_settings_new env_mixed)).1).1 :=
    Reachable.step _ _ (Reachable.step _ _ Reachable.constructed rfl) rfl
  ⟨hr, by decide, by decide,
    (C16_color_scheme_needs_support env_mixed _ hr).1 (by decide)⟩

/-- Claim C17, at the input where the code departs from it.  The object is
constructed where the portal gives the theme `Yaru-blue`, so its accent is
`blue`; an override is started; the theme changes to `Yaru-red`.
`update_yaru_accent_from_theme` has emptied the accent by `g_steal_pointer`
before it returns on `self->override`: the getter returns `NULL` afterwards and
no `notify::yaru-accent` was emitted. -/
theorem C17_accent_lost_without_notify_during_override :
    adw_settings_get_yaru_accent
      (adw_settings_start_override (adw_settings_new env_yaru_blue)).1 = some "blue" ∧
    (adw_settings_start_override (adw_settings_new env_yaru_blue)).1.override = true ∧
    adw_settings_get_yaru_accent
      (update_yaru_accent_from_theme
        (adw_settings_start_override (adw_settings_new env_yaru_blue)).1 "Yaru-red").1 = none ∧
    (update_yaru_accent_from_theme
      (adw_settings_start_override (adw_settings_new env_yaru_blue)).1 "Yaru-red").2 = [] := by
  decide

/-- Claim C18.  The fallback chain stops as soon as both settings are found.  The
platform backend is created if and only if `init_debug` left a setting unfound,
the GSettings backend if and only if one is still unfound after the platform
backend, the legacy backend if and only if one is still unfound after GSettings;
a backend that is created is the one its constructor returns for the negated
found flags of that point; and the found flags after a backend are those before
it, each set in addition when the backend was created and reports the setting. -/
theorem C18_chain_stops_when_both_found (env : Env) :
    ((adw_settings_new env).platform_impl =
      if !(after_debug env).2.1 || !(after_debug env).2.2.1 then
        some (env.adw_settings_impl_portal_new (!(after_debug env).2.1)
          (!(after_debug env).2.2.1))
      else none) ∧
    ((adw_settings_new env).gsettings_impl =
      if !(after_platform env).2.1 || !(after_platform env).2.2.1 then
        some (env.adw_settings_impl_gsettings_new (!(after_platform env).2.1)
          (!(after_platform env).2.2.1))
      else none) ∧
    ((adw_settings_new env).legacy_impl =
      if !(after_gsettings env).2.1 || !(after_gsettings env).2.2.1 then
        some (env.adw_settings_impl_legacy_new (!(after_gsettings env).2.1)
          (!(after_gsettings env).2.2.1))
      else none) ∧
    ((after_debug env).2.1 = (init_debug env adw_settings_init false false).2.1 ∧
      (after_debug env).2.2.1 = (init_debug env adw_settings_init false false).2.2) ∧
    ((after_platform env).2.1 =
        ((after_debug env).2.1 ||
          ((!(after_debug env).2.1 || !(after_debug env).2.2.1) &&
            (env.adw_settings_impl_portal_new (!(after_debug env).2.1)
              (!(after_debug env).2.2.1)).has_color_scheme)) ∧
      (after_platform env).2.2.1 =
        ((after_debug env).2.2.1 ||
          ((!(after_debug env).2.1 || !(after_debug env).2.2.1) &&
            (env.adw_settings_impl_portal_new (!(after_debug env).2.1)
              (!(after_debug env).2.2.1)).has_high_contrast))) ∧
    ((after_gsettings env).2.1 =
        ((after_platform env).2.1 ||
          ((!(after_platform env).2.1 || !(after_platform env).2.2.1) &&
            (env.adw_settings_impl_gsettings_new (!(after_platform env).2.1)
              (!(after_platform env).2.2.1)).has_color_scheme)) ∧
      (after_gsettings env).2.2.1 =
        ((after_platform env).2.2.1 ||
          ((!(after_platform env).2.1 || !(after_platform env).2.2.1) &&
            (env.adw_settings_impl_gsettings_new (!(after_platform env).2.1)
              (!(after_platform env).2.2.1)).has_high_contrast))) := by
  refine ⟨?_, ?_, ?_, ⟨rfl, rfl⟩, ⟨after_platform_found_cs env, after_platform_found_hc env⟩,
    ⟨after_gsettings_found_cs env, after_gsettings_found_hc env⟩⟩
  · rw [adw_settings_new_eq]; rfl
  · rw [adw_settings_new_eq]; rfl
  · rw [adw_settings_new_eq]; rfl

/-- Claim C19.  The accent is derived from the theme name of the first available
source: `update_yaru_accent` does what `update_yaru_accent_spec` says.  When the
portal yields a theme name the result is one call of
`update_yaru_accent_from_theme` with it and the portal tag, whatever the other
sources hold; failing that the same with the GTK display setting; failing that
with GSettings; and when no source yields a name the object is returned
unchanged with `ADW_YARU_ACCENT_SOURCE_NONE`. -/
theorem C19_accent_from_first_theme_source (env : Env) (self : AdwSettings) :
    update_yaru_accent env self = update_yaru_accent_spec env self ∧
    (∀ t, env.portal_enabled = true → env.portal_read_gtk_theme = some t →
      update_yaru_accent env self =
        ((update_yaru_accent_from_theme self t).1, (update_yaru_accent_from_theme self t).2,
          ADW_YARU_ACCENT_SOURCE_PORTAL)) ∧
    (∀ t, (env.portal_enabled = false ∨ env.portal_read_gtk_theme = none) →
      env.gdk_display_gtk_theme_name = some (some t) →
      update_yaru_accent env self =
        ((update_yaru_accent_from_theme self t).1, (update_yaru_accent_from_theme self t).2,
          ADW_YARU_ACCENT_SOURCE_GTK)) ∧
    (∀ t i, (env.portal_enabled = false ∨ env.portal_read_gtk_theme = none) →
      (env.gdk_display_gtk_theme_name = none ∨ env.gdk_display_gtk_theme_name = some none) →
      self.gsettings_impl = some i → env.gsettings_interface_gtk_theme = some t →
      update_yaru_accent env self =
        ((update_yaru_accent_from_theme self t).1, (update_yaru_accent_from_theme self t).2,
          ADW_YARU_ACCENT_SOURCE_GSETTINGS)) ∧
    (no_theme_source env self →
      update_yaru_accent env self = (self, [], ADW_YARU_ACCENT_SOURCE_NONE) ∧
      adw_settings_get_yaru_accent (update_yaru_accent env self).1 =
        adw_settings_get_yaru_accent self) := by
  refine ⟨update_yaru_accent_eq_spec env self, fun t h1 h2 => ?_, fun t h1 h2 => ?_,
    fun t i h1 h2 h3 h4 => ?_, fun h => ?_⟩
  · rw [update_yaru_accent_eq_spec]
    unfold update_yaru_accent_spec first_theme_source
    simp [h1, h2]
  · rw [update_yaru_accent_eq_spec]
    unfold update_yaru_accent_spec first_theme_source
    rcases h1 with h1 | h1 <;> simp [h1, h2]
  · rw [update_yaru_accent_eq_spec]
    unfold update_yaru_accent_spec first_theme_source
    rcases h1 with h1 | h1 <;> rcases h2 with h2 | h2 <;> simp [h1, h2, h3, h4]
  · rw [update_yaru_accent_no_source env self h]
    exact ⟨rfl, rfl⟩

/-- Witness of C19 in `env_yaru_blue`, where the portal yields `Yaru-blue`. -/
theorem C19_accent_from_first_theme_source_witness :
    env_yaru_blue.portal_enabled = true ∧
    env_yaru_blue.portal_read_gtk_theme = some "Yaru-blue" ∧
    update_yaru_accent env_yaru_blue adw_settings_init =
      ({ adw_settings_init with yaru_accent := some "blue" }, [PROP_YARU_ACCENT],
        ADW_YARU_ACCENT_SOURCE_PORTAL) :=
  ⟨rfl, rfl,
    ((C19_accent_from_first_theme_source env_yaru_blue adw_settings_init).2.1 "Yaru-blue"
      rfl rfl).trans (by decide)⟩

end Adw
